import Mathlib

/-!
VehicleModelAccessor.

A shallow embedding of `lib_vehicle_model/VehicleModelAccessor.cpp` and the
properties checked against it.

Modelling conventions.

* A C++ `double` is a `Double`: an exact rational or NaN.  Every comparison
  with NaN is false, as in the source; arithmetic on rationals is exact
  (rounding is outside the model) and a result that is not a finite number (a
  division by zero, an operation on NaN) is NaN, infinities being outside the
  model.
* The unqualified call `abs(delta_steer / timestep)` is resolved by name lookup
  in the translation unit as it is given: no using-declaration, no `std::`, so
  it binds the `::abs` of the C library, `int abs(int)`, and the argument is
  converted from `double` to `int`, which truncates toward zero.  The range of
  `int` is outside the model.
* The file-level variables of the private namespace are the fields of
  `Accessor`; every function takes the current `Accessor` and, when it writes
  to one of the variables, returns the new one.
* A `throw` is an `Except.error`.  The `what()` text of an exception is kept as
  a structured `Message` carrying the values streamed into it.
* Calls that leave the translation unit (the parameter server, the dynamic
  loader, the plugin) are recorded, in order, in a ghost `trace`.
* `std::lock_guard` is not modelled: calls are executed one after another.
-/

namespace VehicleModelAccessor

/-! ## The type `double` -/

/-- A value of the C++ type `double`: a finite number, kept as an exact rational,
or NaN. -/
inductive Double where
  | finite (value : ℚ)
  | nan
  deriving DecidableEq

/-- The operator `<` on `double`: false when an operand is NaN. -/
def Double.lt : Double → Double → Prop
  | .finite a, .finite b => a < b
  | _, _ => False

/-- The operator `<=` on `double`: false when an operand is NaN. -/
def Double.le : Double → Double → Prop
  | .finite a, .finite b => a ≤ b
  | _, _ => False

instance : LT Double := ⟨Double.lt⟩

instance : LE Double := ⟨Double.le⟩

instance (a b : Double) : Decidable (a < b) :=
  match a, b with
  | .finite x, .finite y => inferInstanceAs (Decidable (x < y))
  | .finite _, .nan => isFalse fun h => h
  | .nan, _ => isFalse fun h => h

instance (a b : Double) : Decidable (a ≤ b) :=
  match a, b with
  | .finite x, .finite y => inferInstanceAs (Decidable (x ≤ y))
  | .finite _, .nan => isFalse fun h => h
  | .nan, _ => isFalse fun h => h

/-- Unary minus on `double`. -/
def Double.neg : Double → Double
  | .finite a => .finite (-a)
  | .nan => .nan

/-- Subtraction on `double`. -/
def Double.sub : Double → Double → Double
  | .finite a, .finite b => .finite (a - b)
  | _, _ => .nan

/-- Division on `double`; a division by zero has no finite result. -/
def Double.div : Double → Double → Double
  | .finite a, .finite b => if b = 0 then .nan else .finite (a / b)
  | _, _ => .nan

/-- The absolute value on `double`, the `|x|` of the specification. -/
def Double.fabs : Double → Double
  | .finite a => .finite |a|
  | .nan => .nan

/-- Whether a `double` is NaN. -/
def Double.isNaN : Double → Bool
  | .finite _ => false
  | .nan => true

instance : Neg Double := ⟨Double.neg⟩

instance : Sub Double := ⟨Double.sub⟩

instance : Div Double := ⟨Double.div⟩

instance (n : Nat) : OfNat Double n := ⟨.finite n⟩

instance : OfScientific Double :=
  ⟨fun mantissa exponentSign exponent =>
    .finite (OfScientific.ofScientific mantissa exponentSign exponent)⟩

/-- The conversion of a finite `double` to `int`: the fractional part is
discarded, that is, truncation toward zero. -/
def toInt (q : ℚ) : Int :=
  if 0 ≤ q then ⌊q⌋ else -⌊-q⌋

/-- The function the call `abs(delta_steer / timestep)` binds: `int abs(int)`.
The `double` argument is converted to `int`, the absolute value is taken on
`int`, and the result is converted back when it initialises the `double`
variable `steering_rate`.  Converting NaN to `int` is undefined behaviour; the
model keeps NaN, on which the comparison that follows is false. -/
def abs (x : Double) : Double :=
  match x with
  | .finite q => .finite ((toInt q).natAbs : ℚ)
  | .nan => .nan

/-! ## Data model -/

/-- Modelled from the spec: the declaration of `VehicleState` is not part of the
sources.  Only `steering_angle` and `trailer_angle` are read by the accessor;
the pose and velocity fields are kept together in `other`. -/
structure VehicleState where
  steering_angle : Double
  trailer_angle : Double
  other : List Double
  deriving DecidableEq

/-- Modelled from the spec: the declaration of `VehicleModelControlInput` is not
part of the sources. -/
structure VehicleModelControlInput where
  target_acceleration : Double
  target_steering_angle : Double
  deriving DecidableEq

/-- Modelled from the spec: the abstract `ParameterServer` interface, whose
declaration is not part of the sources.  `getParam(key, output)` returns whether
the key was found; `output` is a reference, so the call is a function of the key
and of the current content of `output`, giving the flag and the new content. -/
structure ParameterServer where
  getParamString : String → String → Bool × String
  getParamDouble : String → Double → Bool × Double

/-- Modelled from the spec: the abstract `VehicleMotionModel` capability
implemented by the plugin.  `parameter_server` is what `setParameterServer` last
stored in the instance; the two `predict` members may depend on it. -/
structure VehicleMotionModel where
  parameter_server : Option ParameterServer
  predictTimestep : Option ParameterServer → VehicleState → Double → Double → List VehicleState
  predictControl : Option ParameterServer → VehicleState →
    List VehicleModelControlInput → Double → List VehicleState

/-- The member `setParameterServer` of the model. -/
def VehicleMotionModel.setParameterServer (m : VehicleMotionModel)
    (ps : Option ParameterServer) : VehicleMotionModel :=
  { m with parameter_server := ps }

/-- The member `predict(initial_state, timestep, delta_t)` of the model. -/
def VehicleMotionModel.predict (m : VehicleMotionModel) (initial_state : VehicleState)
    (timestep delta_t : Double) : List VehicleState :=
  m.predictTimestep m.parameter_server initial_state timestep delta_t

/-- The member `predict(initial_state, control_inputs, timestep)` of the model. -/
def VehicleMotionModel.predictInputs (m : VehicleMotionModel) (initial_state : VehicleState)
    (control_inputs : List VehicleModelControlInput) (timestep : Double) : List VehicleState :=
  m.predictControl m.parameter_server initial_state control_inputs timestep

/-- The type `create_fnc_ptr`: a function without arguments returning a pointer
to a new model, `none` being the null pointer. -/
abbrev create_fnc_ptr := Unit → Option VehicleMotionModel

/-- The type `destroy_fnc_ptr`.  The accessor never calls it; it is only stored
as the deleter of the model, so it is identified by the library it comes from. -/
structure destroy_fnc_ptr where
  library : String
  deriving DecidableEq

/-- What `dlopen` gives for a path that can be opened: the results of
`dlsym(lib_handle, "create")` and `dlsym(lib_handle, "destroy")` after the cast,
`none` being the null pointer. -/
structure SharedLibrary where
  create : Option create_fnc_ptr
  destroy : Option destroy_fnc_ptr

/-- The dynamic loader of the process: `dlopen` by path (`none` is the null
handle), and the text `dlerror()` holds after a failed `dlopen` of a path and
after a failed `dlsym` of a symbol.  After a call that succeeded `dlerror()`
returns the null pointer. -/
structure DynamicLoader where
  dlopen : String → Option SharedLibrary
  dlopenError : String → String
  dlsymError : String → String

/-- The text of an exception, with the values streamed into it. -/
inductive Message where
  | openFailed (path errorLog : String)
  | createNotFound (errorLog : String)
  | destroyNotFound (errorLog : String)
  | initialSteeringBelowMin (value bound : Double)
  | initialSteeringAboveMax (value bound : Double)
  | initialTrailerBelowMin (value bound : Double)
  | initialTrailerAboveMax (value bound : Double)
  | accelerationBelowMin (count : Nat) (value bound : Double)
  | accelerationAboveMax (count : Nat) (value bound : Double)
  | steeringBelowMin (count : Nat) (value bound : Double)
  | steeringAboveMax (count : Nat) (value bound : Double)
  | steeringRateAboveMax (count : Nat) (steering_rate bound : Double)
  | loadedTwice
  | paramsNotFound (found : List (String × Bool))
  | notLoaded
  | invalidTimestep (timestep delta_t : Double)
  | nullString
  deriving DecidableEq

/-- The ways a call can end without returning: the two exception classes the
file throws, the `std::logic_error` the constructor of `std::string` throws
when it is given a null pointer, and the dereference of a null `shared_ptr`
(not an exception: the behaviour of the program is undefined from there on,
and the model stops). -/
inductive Exception where
  | invalid_argument (what : Message)
  | runtime_error (what : Message)
  | logic_error (what : Message)
  | null_dereference
  deriving DecidableEq

/-- A `std::shared_ptr<VehicleMotionModel>` that is not null: the instance and
the deleter passed to `reset`. -/
structure ModelHandle where
  model : VehicleMotionModel
  deleter : destroy_fnc_ptr

/-- The variables of the private namespace. -/
structure Accessor where
  param_server_ : Option ParameterServer
  vehicle_model_lib_path_ : String
  max_forward_speed_ : Double
  max_reverse_speed_ : Double
  forward_acceleration_limit_ : Double
  forward_deceleration_limit_ : Double
  reverse_acceleration_limit_ : Double
  reverse_deceleration_limit_ : Double
  max_steering_angle_ : Double
  min_steering_angle_ : Double
  max_steering_angle_rate_ : Double
  max_trailer_angle_ : Double
  min_trailer_angle_ : Double
  vehicle_model_ : Option ModelHandle
  modelLoaded_ : Bool
  create_fnc_ : Option create_fnc_ptr
  destroy_fnc_ : Option destroy_fnc_ptr

/-- A call across the boundary of the translation unit. -/
inductive Event where
  | getParam (key : String)
  | dlopen (path : String)
  | dlsym (symbol : String)
  | dlerror
  | create
  | setParameterServer
  | modelPredict (initial_state : VehicleState) (timestep delta_t : Double)
  | modelPredictInputs (initial_state : VehicleState)
      (control_inputs : List VehicleModelControlInput) (timestep : Double)
  deriving DecidableEq

/-- What a call of a function that may write the variables leaves behind:
its result or exception, the variables after it, and the external calls made. -/
structure Outcome (α : Type) where
  result : Except Exception α
  state : Accessor
  trace : List Event

/-! ## The validators -/

/-- The function `validateInitialState`. -/
def validateInitialState (st : Accessor) (initial_state : VehicleState) :
    Except Exception Unit :=
  if initial_state.steering_angle < st.min_steering_angle_ then
    .error (.invalid_argument
      (.initialSteeringBelowMin initial_state.steering_angle st.min_steering_angle_))
  else if initial_state.steering_angle > st.max_steering_angle_ then
    .error (.invalid_argument
      (.initialSteeringAboveMax initial_state.steering_angle st.max_steering_angle_))
  else if initial_state.trailer_angle < st.min_trailer_angle_ then
    .error (.invalid_argument
      (.initialTrailerBelowMin initial_state.trailer_angle st.min_trailer_angle_))
  else if initial_state.trailer_angle > st.max_trailer_angle_ then
    .error (.invalid_argument
      (.initialTrailerAboveMax initial_state.trailer_angle st.max_trailer_angle_))
  else
    .ok ()

/-- The body of the range-based `for` of `validateControlInputs`, run over the
inputs that remain, with the current values of the locals `last_steer_angle` and
`count`. -/
def validateControlInputsLoop (st : Accessor) (timestep : Double) :
    Double → Nat → List VehicleModelControlInput → Except Exception Unit
  | _, _, [] => .ok ()
  | last_steer_angle, count, control :: rest =>
    if control.target_acceleration < st.forward_deceleration_limit_ then
      .error (.invalid_argument
        (.accelerationBelowMin count control.target_acceleration st.forward_deceleration_limit_))
    else if control.target_acceleration > st.forward_acceleration_limit_ then
      .error (.invalid_argument
        (.accelerationAboveMax count control.target_acceleration st.forward_acceleration_limit_))
    else if control.target_steering_angle < st.min_steering_angle_ then
      .error (.invalid_argument
        (.steeringBelowMin count control.target_steering_angle st.min_steering_angle_))
    else if control.target_steering_angle > st.max_steering_angle_ then
      .error (.invalid_argument
        (.steeringAboveMax count control.target_steering_angle st.max_steering_angle_))
    else
      let delta_steer := control.target_steering_angle - last_steer_angle
      let steering_rate := abs (delta_steer / timestep)
      if steering_rate > st.max_steering_angle_rate_ then
        .error (.invalid_argument
          (.steeringRateAboveMax count steering_rate st.max_steering_angle_rate_))
      else
        validateControlInputsLoop st timestep control.target_steering_angle (count + 1) rest

/-- The function `validateControlInputs`. -/
def validateControlInputs (st : Accessor) (initial_state : VehicleState)
    (control_inputs : List VehicleModelControlInput) (timestep : Double) : Except Exception Unit :=
  validateControlInputsLoop st timestep initial_state.steering_angle 0 control_inputs

/-! ## Loading and initialisation -/

/-- The two statements `std::string errorLog(dlerror()); throw
std::invalid_argument(... + errorLog)`: `dlerror` is what `dlerror()` returns,
`none` being the null pointer, for which the constructor of `std::string`
throws before the `throw` statement is reached. -/
def throwWithErrorLog (dlerror : Option String) (what : String → Message) : Exception :=
  match dlerror with
  | none => .logic_error .nullString
  | some errorLog => .invalid_argument (what errorLog)

/-- The function `loadModel`. -/
def loadModel (st : Accessor) (dl : DynamicLoader) : Outcome Unit :=
  match dl.dlopen st.vehicle_model_lib_path_ with
  | none =>
    { result := .error (throwWithErrorLog (some (dl.dlopenError st.vehicle_model_lib_path_))
        (.openFailed st.vehicle_model_lib_path_))
      state := st
      trace := [.dlopen st.vehicle_model_lib_path_, .dlerror] }
  | some lib_handle =>
    let st₁ := { st with create_fnc_ := lib_handle.create, destroy_fnc_ := lib_handle.destroy }
    let dlerror : Option String :=
      match lib_handle.destroy with
      | none => some (dl.dlsymError "destroy")
      | some _ => none
    match st₁.create_fnc_ with
    | none =>
      { result := .error (throwWithErrorLog dlerror .createNotFound)
        state := st₁
        trace := [.dlopen st.vehicle_model_lib_path_, .dlsym "create", .dlsym "destroy",
          .dlerror] }
    | some create_fnc =>
      match st₁.destroy_fnc_ with
      | none =>
        { result := .error (throwWithErrorLog dlerror .destroyNotFound)
          state := st₁
          trace := [.dlopen st.vehicle_model_lib_path_, .dlsym "create", .dlsym "destroy",
            .dlerror] }
      | some destroy_fnc =>
        { result := .ok ()
          state := { st₁ with
            vehicle_model_ := (create_fnc ()).map fun m => { model := m, deleter := destroy_fnc } }
          trace := [.dlopen st.vehicle_model_lib_path_, .dlsym "create", .dlsym "destroy",
            .create] }

/-- The nine `getParam` calls of `init`, in the order of the source: the
variables after them and, per key, the flag returned. -/
def loadParameters (st : Accessor) (ps : ParameterServer) : Accessor × List (String × Bool) :=
  let pathParam := ps.getParamString "vehicle_model_lib_path" st.vehicle_model_lib_path_
  let speedParam := ps.getParamDouble "max_forward_speed" st.max_forward_speed_
  let accelParam := ps.getParamDouble "forward_acceleration_limit" st.forward_acceleration_limit_
  let decelParam := ps.getParamDouble "forward_deceleration_limit" st.forward_deceleration_limit_
  let maxSteerParam := ps.getParamDouble "max_steering_angle" st.max_steering_angle_
  let minSteerParam := ps.getParamDouble "min_steering_angle" st.min_steering_angle_
  let maxSteerRate := ps.getParamDouble "max_steering_angle_rate" st.max_steering_angle_rate_
  let maxTrailerAngle := ps.getParamDouble "max_trailer_angle" st.max_trailer_angle_
  let minTrailerAngle := ps.getParamDouble "min_trailer_angle" st.min_trailer_angle_
  ({ st with
      vehicle_model_lib_path_ := pathParam.2
      max_forward_speed_ := speedParam.2
      forward_acceleration_limit_ := accelParam.2
      forward_deceleration_limit_ := decelParam.2
      max_steering_angle_ := maxSteerParam.2
      min_steering_angle_ := minSteerParam.2
      max_steering_angle_rate_ := maxSteerRate.2
      max_trailer_angle_ := maxTrailerAngle.2
      min_trailer_angle_ := minTrailerAngle.2 },
   [("vehicle_model_lib_path", pathParam.1),
    ("max_forward_speed", speedParam.1),
    ("forward_acceleration_limit", accelParam.1),
    ("forward_deceleration_limit", decelParam.1),
    ("max_steering_angle", maxSteerParam.1),
    ("min_steering_angle", minSteerParam.1),
    ("max_steering_angle_rate", maxSteerRate.1),
    ("max_trailer_angle", maxTrailerAngle.1),
    ("min_trailer_angle", minTrailerAngle.1)])

/-- The function `init`. -/
def init (st : Accessor) (dl : DynamicLoader) (parameter_server : Option ParameterServer) :
    Outcome Unit :=
  if st.modelLoaded_ then
    { result := .error (.runtime_error .loadedTwice), state := st, trace := [] }
  else
    let st₁ := { st with param_server_ := parameter_server }
    match st₁.param_server_ with
    | none => { result := .error .null_dereference, state := st₁, trace := [] }
    | some ps =>
      let loaded := loadParameters st₁ ps
      let reads := loaded.2.map fun kv => Event.getParam kv.1
      if !(loaded.2.all fun kv => kv.2) then
        { result := .error (.invalid_argument (.paramsNotFound loaded.2))
          state := loaded.1
          trace := reads }
      else
        let load := loadModel loaded.1 dl
        match load.result with
        | .error e => { result := .error e, state := load.state, trace := reads ++ load.trace }
        | .ok () =>
          match load.state.vehicle_model_ with
          | none =>
            { result := .error .null_dereference
              state := load.state
              trace := reads ++ load.trace }
          | some handle =>
            { result := .ok ()
              state := { load.state with
                vehicle_model_ := some { handle with
                  model := handle.model.setParameterServer load.state.param_server_ }
                modelLoaded_ := true }
              trace := reads ++ load.trace ++ [.setParameterServer] }

/-! ## Prediction -/

/-- The overload `predict(initial_state, timestep, delta_t)`. -/
def predict (st : Accessor) (initial_state : VehicleState) (timestep delta_t : Double) :
    Outcome (List VehicleState) :=
  if !st.modelLoaded_ then
    { result := .error (.runtime_error .notLoaded), state := st, trace := [] }
  else if timestep > delta_t then
    { result := .error (.invalid_argument (.invalidTimestep timestep delta_t))
      state := st
      trace := [] }
  else
    match validateInitialState st initial_state with
    | .error e => { result := .error e, state := st, trace := [] }
    | .ok () =>
      match st.vehicle_model_ with
      | none => { result := .error .null_dereference, state := st, trace := [] }
      | some handle =>
        { result := .ok (handle.model.predict initial_state timestep delta_t)
          state := st
          trace := [.modelPredict initial_state timestep delta_t] }

/-- The overload `predict(initial_state, control_inputs, timestep)`. -/
def predictInputs (st : Accessor) (initial_state : VehicleState)
    (control_inputs : List VehicleModelControlInput) (timestep : Double) :
    Outcome (List VehicleState) :=
  if !st.modelLoaded_ then
    { result := .error (.runtime_error .notLoaded), state := st, trace := [] }
  else
    match validateInitialState st initial_state with
    | .error e => { result := .error e, state := st, trace := [] }
    | .ok () =>
      match validateControlInputs st initial_state control_inputs timestep with
      | .error e => { result := .error e, state := st, trace := [] }
      | .ok () =>
        match st.vehicle_model_ with
        | none => { result := .error .null_dereference, state := st, trace := [] }
        | some handle =>
          { result := .ok (handle.model.predictInputs initial_state control_inputs timestep)
            state := st
            trace := [.modelPredictInputs initial_state control_inputs timestep] }

/-! ## The process -/

/-- The variables at program start: static storage is zero-initialised, the
strings are empty, the smart pointers and function pointers are null and
`modelLoaded_` is `false`. -/
def uninitialized : Accessor where
  param_server_ := none
  vehicle_model_lib_path_ := ""
  max_forward_speed_ := 0
  max_reverse_speed_ := 0
  forward_acceleration_limit_ := 0
  forward_deceleration_limit_ := 0
  reverse_acceleration_limit_ := 0
  reverse_deceleration_limit_ := 0
  max_steering_angle_ := 0
  min_steering_angle_ := 0
  max_steering_angle_rate_ := 0
  max_trailer_angle_ := 0
  min_trailer_angle_ := 0
  vehicle_model_ := none
  modelLoaded_ := false
  create_fnc_ := none
  destroy_fnc_ := none

/-- A call of one of the three public functions, with its arguments; for `init`
also the dynamic loader as it is at the time of the call. -/
inductive Call where
  | init (dl : DynamicLoader) (parameter_server : Option ParameterServer)
  | predict (initial_state : VehicleState) (timestep delta_t : Double)
  | predictInputs (initial_state : VehicleState)
      (control_inputs : List VehicleModelControlInput) (timestep : Double)

/-- The variables after a call made with the variables `st`. -/
def Call.stateAfter (st : Accessor) : Call → Accessor
  | .init dl parameter_server => (VehicleModelAccessor.init st dl parameter_server).state
  | .predict initial_state timestep delta_t =>
    (VehicleModelAccessor.predict st initial_state timestep delta_t).state
  | .predictInputs initial_state control_inputs timestep =>
    (VehicleModelAccessor.predictInputs st initial_state control_inputs timestep).state

/-- Whether a call made with the variables `st` returns without throwing. -/
def Call.returns (st : Accessor) : Call → Bool
  | .init dl parameter_server =>
    (VehicleModelAccessor.init st dl parameter_server).result.toBool
  | .predict initial_state timestep delta_t =>
    (VehicleModelAccessor.predict st initial_state timestep delta_t).result.toBool
  | .predictInputs initial_state control_inputs timestep =>
    (VehicleModelAccessor.predictInputs st initial_state control_inputs timestep).result.toBool

/-- The variables after a sequence of calls, made one after another. -/
def runCalls (st : Accessor) : List Call → Accessor
  | [] => st
  | call :: rest => runCalls (call.stateAfter st) rest

/-- For each call of a sequence, whether it returned without throwing. -/
def returnsLog (st : Accessor) : List Call → List Bool
  | [] => []
  | call :: rest => call.returns st :: returnsLog (call.stateAfter st) rest

/-- Whether a call is a call of `init`. -/
def Call.isInit : Call → Bool
  | .init _ _ => true
  | _ => false

/-! ## The statements of the specification -/

/-- The steering angle input `i` is measured against: that of the initial state
for index 0, the target of input `i - 1` after that. -/
def previousSteeringAngle (initial_state : VehicleState)
    (control_inputs : List VehicleModelControlInput) : Nat → Double
  | 0 => initial_state.steering_angle
  | i + 1 =>
    match control_inputs.get? i with
    | some control => control.target_steering_angle
    | none => 0

/-- The three conditions of the specification on one input, `previous` being the
steering angle it is measured against; all bounds inclusive. -/
def withinLimits (st : Accessor) (timestep previous : Double)
    (control : VehicleModelControlInput) : Prop :=
  (st.forward_deceleration_limit_ ≤ control.target_acceleration ∧
    control.target_acceleration ≤ st.forward_acceleration_limit_) ∧
  (st.min_steering_angle_ ≤ control.target_steering_angle ∧
    control.target_steering_angle ≤ st.max_steering_angle_) ∧
  Double.fabs (control.target_steering_angle - previous) / timestep ≤
    st.max_steering_angle_rate_

instance (st : Accessor) (timestep previous : Double) (control : VehicleModelControlInput) :
    Decidable (withinLimits st timestep previous control) := by
  unfold withinLimits
  exact inferInstance

/-- The five checks made on one input, in the order of the source, each with
the message thrown when it is violated; `previous` is the steering angle the
input is measured against and `i` its index. -/
def inputChecks (st : Accessor) (timestep previous : Double) (i : Nat)
    (control : VehicleModelControlInput) : List (Bool × Message) :=
  [(decide (control.target_acceleration < st.forward_deceleration_limit_),
      .accelerationBelowMin i control.target_acceleration st.forward_deceleration_limit_),
   (decide (control.target_acceleration > st.forward_acceleration_limit_),
      .accelerationAboveMax i control.target_acceleration st.forward_acceleration_limit_),
   (decide (control.target_steering_angle < st.min_steering_angle_),
      .steeringBelowMin i control.target_steering_angle st.min_steering_angle_),
   (decide (control.target_steering_angle > st.max_steering_angle_),
      .steeringAboveMax i control.target_steering_angle st.max_steering_angle_),
   (decide (abs ((control.target_steering_angle - previous) / timestep) >
        st.max_steering_angle_rate_),
      .steeringRateAboveMax i (abs ((control.target_steering_angle - previous) / timestep))
        st.max_steering_angle_rate_)]

/-- The message of the first violated check of `inputChecks`, if there is one. -/
def firstViolation (st : Accessor) (timestep previous : Double) (i : Nat)
    (control : VehicleModelControlInput) : Option Message :=
  ((inputChecks st timestep previous i control).find? fun check => check.1).map
    fun check => check.2

/-- The initial state with its steering angle replaced by the steering target
of the last of the given inputs; the initial state itself when there is none. -/
def carriedState (initial_state : VehicleState)
    (control_inputs : List VehicleModelControlInput) : VehicleState :=
  match control_inputs.getLast? with
  | some control => { initial_state with steering_angle := control.target_steering_angle }
  | none => initial_state

/-- The configuration keys the specification lists as required: the path and
eleven doubles. -/
def requiredKeys : List String :=
  ["vehicle_model_lib_path", "max_forward_speed", "max_reverse_speed",
   "forward_acceleration_limit", "forward_deceleration_limit",
   "reverse_acceleration_limit", "reverse_deceleration_limit",
   "max_steering_angle", "min_steering_angle", "max_steering_angle_rate",
   "max_trailer_angle", "min_trailer_angle"]

/-- The keys `init` asks the parameter server for, in the order of the calls. -/
def readKeys : List String :=
  ["vehicle_model_lib_path", "max_forward_speed", "forward_acceleration_limit",
   "forward_deceleration_limit", "max_steering_angle", "min_steering_angle",
   "max_steering_angle_rate", "max_trailer_angle", "min_trailer_angle"]

/-- A parameter source has a key when `getParam` returns `true` for it whatever
the output variable holds: as a string for the path, as a double otherwise. -/
def ParameterServer.finds (ps : ParameterServer) (key : String) : Prop :=
  if key = "vehicle_model_lib_path" then ∀ output, (ps.getParamString key output).1 = true
  else ∀ output, (ps.getParamDouble key output).1 = true

/-- A parameter source is missing a key when `getParam` returns `false` for it
whatever the output variable holds. -/
def ParameterServer.lacks (ps : ParameterServer) (key : String) : Prop :=
  if key = "vehicle_model_lib_path" then ∀ output, (ps.getParamString key output).1 = false
  else ∀ output, (ps.getParamDouble key output).1 = false

/-- The configuration of the specification: the path and the eleven limits. -/
structure Configuration where
  plugin_path : String
  max_forward_speed : Double
  max_reverse_speed : Double
  forward_acceleration_limit : Double
  forward_deceleration_limit : Double
  reverse_acceleration_limit : Double
  reverse_deceleration_limit : Double
  max_steering_angle : Double
  min_steering_angle : Double
  max_steering_angle_rate : Double
  max_trailer_angle : Double
  min_trailer_angle : Double
  deriving DecidableEq

/-- The configuration values stored in the variables. -/
def Accessor.configuration (st : Accessor) : Configuration where
  plugin_path := st.vehicle_model_lib_path_
  max_forward_speed := st.max_forward_speed_
  max_reverse_speed := st.max_reverse_speed_
  forward_acceleration_limit := st.forward_acceleration_limit_
  forward_deceleration_limit := st.forward_deceleration_limit_
  reverse_acceleration_limit := st.reverse_acceleration_limit_
  reverse_deceleration_limit := st.reverse_deceleration_limit_
  max_steering_angle := st.max_steering_angle_
  min_steering_angle := st.min_steering_angle_
  max_steering_angle_rate := st.max_steering_angle_rate_
  max_trailer_angle := st.max_trailer_angle_
  min_trailer_angle := st.min_trailer_angle_

/-! ## Values used to instantiate the statements -/

/-- Limits with the steering bounds and the steering rate of the examples of
the specification; no model loaded. -/
def exampleLimits : Accessor where
  param_server_ := none
  vehicle_model_lib_path_ := ""
  max_forward_speed_ := 30
  max_reverse_speed_ := 5
  forward_acceleration_limit_ := 3
  forward_deceleration_limit_ := -6
  reverse_acceleration_limit_ := 1
  reverse_deceleration_limit_ := -2
  max_steering_angle_ := 0.5
  min_steering_angle_ := -0.5
  max_steering_angle_rate_ := 0.2
  max_trailer_angle_ := 1
  min_trailer_angle_ := -1
  vehicle_model_ := none
  modelLoaded_ := false
  create_fnc_ := none
  destroy_fnc_ := none

/-- A state at rest with the given steering angle. -/
def stateWithSteering (steering_angle : Double) : VehicleState :=
  { steering_angle := steering_angle, trailer_angle := 0, other := [] }

/-- An input with no acceleration and the given steering target. -/
def steer (target_steering_angle : Double) : VehicleModelControlInput :=
  { target_acceleration := 0, target_steering_angle := target_steering_angle }

/-- A model that answers with the state it is given, followed, for the overload
with control inputs, by one state per input holding the steering target. -/
def echoModel : VehicleMotionModel where
  parameter_server := none
  predictTimestep := fun _ initial_state _ _ => [initial_state]
  predictControl := fun _ initial_state control_inputs _ =>
    initial_state :: control_inputs.map fun control =>
      { initial_state with steering_angle := control.target_steering_angle }

/-- The limits of `exampleLimits` with `echoModel` loaded. -/
def exampleLoaded : Accessor :=
  { exampleLimits with
    vehicle_model_ := some { model := echoModel, deleter := { library := "libmodel.so" } }
    modelLoaded_ := true }

/-- A parameter source holding the given strings and doubles: a key that is
found is written to the output, a key that is not leaves the output as it is. -/
def ParameterServer.ofTables (strings : List (String × String)) (doubles : List (String × Double)) :
    ParameterServer where
  getParamString := fun key output =>
    match strings.lookup key with
    | some value => (true, value)
    | none => (false, output)
  getParamDouble := fun key output =>
    match doubles.lookup key with
    | some value => (true, value)
    | none => (false, output)

/-- A parameter source with the nine keys `init` reads and none of the three
reverse limits. -/
def parametersWithoutReverse : ParameterServer :=
  ParameterServer.ofTables [("vehicle_model_lib_path", "libmodel.so")]
    [("max_forward_speed", 30), ("forward_acceleration_limit", 3),
     ("forward_deceleration_limit", -6), ("max_steering_angle", 0.5),
     ("min_steering_angle", -0.5), ("max_steering_angle_rate", 0.2),
     ("max_trailer_angle", 1), ("min_trailer_angle", -1)]

/-- A parameter source with the path and nothing else. -/
def parametersPathOnly : ParameterServer :=
  ParameterServer.ofTables [("vehicle_model_lib_path", "libmodel.so")] []

/-- A loader for which `libmodel.so` opens, exports both symbols and creates
`echoModel`; no other path opens. -/
def exampleLoader : DynamicLoader where
  dlopen := fun path =>
    if path = "libmodel.so" then
      some { create := some fun _ => some echoModel
             destroy := some { library := "libmodel.so" } }
    else none
  dlopenError := fun path => path ++ ": cannot open shared object file"
  dlsymError := fun symbol => "undefined symbol: " ++ symbol

/-- A loader for which every path opens a library that exports `destroy` and
not `create`. -/
def loaderWithoutCreate : DynamicLoader where
  dlopen := fun path => some { create := none, destroy := some { library := path } }
  dlopenError := fun path => path ++ ": cannot open shared object file"
  dlsymError := fun symbol => "undefined symbol: " ++ symbol

/-- The value NaN in the acceleration of an input with steering target 0. -/
def accelerationNaN : VehicleModelControlInput :=
  { target_acceleration := .nan, target_steering_angle := 0 }

/-- A state whose steering angle is NaN. -/
def steeringNaN : VehicleState :=
  { steering_angle := .nan, trailer_angle := 0, other := [] }

/-! ## Properties of `double` -/

theorem Double.lt_finite (a b : ℚ) : Double.finite a < Double.finite b ↔ a < b := Iff.rfl

theorem Double.le_finite (a b : ℚ) : Double.finite a ≤ Double.finite b ↔ a ≤ b := Iff.rfl

theorem Double.ofNat_eq (n : Nat) : (OfNat.ofNat n : Double) = Double.finite (n : ℚ) := rfl

theorem Double.ofScientific_eq (m : Nat) (s : Bool) (e : Nat) :
    (OfScientific.ofScientific m s e : Double) =
      Double.finite (OfScientific.ofScientific m s e) :=
  rfl

theorem Double.sub_finite (a b : ℚ) :
    Double.finite a - Double.finite b = Double.finite (a - b) := rfl

theorem Double.neg_finite (a : ℚ) : -Double.finite a = Double.finite (-a) := rfl

theorem Double.div_finite (a b : ℚ) (h : b ≠ 0) :
    Double.finite a / Double.finite b = Double.finite (a / b) := by
  show Double.div _ _ = _
  simp [Double.div, h]

theorem Double.fabs_finite (a : ℚ) : Double.fabs (Double.finite a) = Double.finite |a| := rfl

theorem Double.not_lt_of_le {a b : Double} (h : a ≤ b) : ¬ b < a := by
  cases a with
  | nan => exact False.elim h
  | finite x =>
    cases b with
    | nan => exact False.elim h
    | finite y => exact not_lt.mpr ((Double.le_finite x y).mp h)

theorem Double.le_of_not_lt {a b : Double} (ha : a.isNaN = false) (hb : b.isNaN = false)
    (h : ¬ a < b) : b ≤ a := by
  cases a with
  | nan => simp [Double.isNaN] at ha
  | finite x =>
    cases b with
    | nan => simp [Double.isNaN] at hb
    | finite y =>
      exact (Double.le_finite y x).mpr (not_lt.mp fun hlt => h ((Double.lt_finite x y).mpr hlt))

theorem natAbs_floor_le (q : ℚ) (h : 0 ≤ q) : ((⌊q⌋.natAbs : ℕ) : ℚ) ≤ q := by
  have h0 : (0 : ℤ) ≤ ⌊q⌋ := Int.floor_nonneg.mpr h
  have hcast : ((⌊q⌋.natAbs : ℕ) : ℚ) = (⌊q⌋ : ℚ) := by
    rw [Nat.cast_natAbs, abs_of_nonneg h0]
  rw [hcast]
  exact Int.floor_le q

theorem natAbs_toInt_le (q : ℚ) : ((toInt q).natAbs : ℚ) ≤ |q| := by
  unfold toInt
  split_ifs with h
  · rw [abs_of_nonneg h]
    exact natAbs_floor_le q h
  · rw [abs_of_neg (by linarith), Int.natAbs_neg]
    exact natAbs_floor_le (-q) (by linarith)

theorem rate_not_above (delta timestep bound : Double) (ht : 0 < timestep)
    (h : Double.fabs delta / timestep ≤ bound) : ¬ abs (delta / timestep) > bound := by
  cases timestep with
  | nan => exact False.elim ht
  | finite t =>
    have ht0 : (0 : ℚ) < t := by
      simpa [Double.ofNat_eq, Double.lt_finite] using ht
    cases delta with
    | nan => exact False.elim h
    | finite d =>
      rw [Double.fabs_finite, Double.div_finite _ _ (ne_of_gt ht0)] at h
      cases bound with
      | nan => exact False.elim h
      | finite b =>
        rw [Double.div_finite _ _ (ne_of_gt ht0)]
        intro hgt
        have hgt' : b < ((toInt (d / t)).natAbs : ℚ) := hgt
        have hle : |d| / t ≤ b := h
        have habs : |d / t| = |d| / t := by rw [abs_div, abs_of_pos ht0]
        have := natAbs_toInt_le (d / t)
        linarith

theorem Double.nan_lt (b : Double) : (Double.nan < b) ↔ False := Iff.rfl

theorem Double.lt_nan (a : Double) : (a < Double.nan) ↔ False := by
  cases a <;> exact Iff.rfl

theorem Double.nan_le (b : Double) : (Double.nan ≤ b) ↔ False := Iff.rfl

theorem Double.le_nan (a : Double) : (a ≤ Double.nan) ↔ False := by
  cases a <;> exact Iff.rfl

theorem Double.div_def (a b : ℚ) :
    Double.finite a / Double.finite b =
      if b = 0 then Double.nan else Double.finite (a / b) := rfl

theorem abs_finite (q : ℚ) : abs (Double.finite q) = Double.finite ((toInt q).natAbs : ℚ) := rfl

theorem abs_nan : abs Double.nan = Double.nan := rfl

/-! ## Properties of the validators -/

theorem validateControlInputsLoop_cons (st : Accessor) (timestep last_steer_angle : Double)
    (count : Nat) (control : VehicleModelControlInput) (rest : List VehicleModelControlInput) :
    validateControlInputsLoop st timestep last_steer_angle count (control :: rest) =
      if control.target_acceleration < st.forward_deceleration_limit_ then
        .error (.invalid_argument (.accelerationBelowMin count control.target_acceleration
          st.forward_deceleration_limit_))
      else if control.target_acceleration > st.forward_acceleration_limit_ then
        .error (.invalid_argument (.accelerationAboveMax count control.target_acceleration
          st.forward_acceleration_limit_))
      else if control.target_steering_angle < st.min_steering_angle_ then
        .error (.invalid_argument (.steeringBelowMin count control.target_steering_angle
          st.min_steering_angle_))
      else if control.target_steering_angle > st.max_steering_angle_ then
        .error (.invalid_argument (.steeringAboveMax count control.target_steering_angle
          st.max_steering_angle_))
      else if abs ((control.target_steering_angle - last_steer_angle) / timestep) >
          st.max_steering_angle_rate_ then
        .error (.invalid_argument (.steeringRateAboveMax count
          (abs ((control.target_steering_angle - last_steer_angle) / timestep))
          st.max_steering_angle_rate_))
      else
        validateControlInputsLoop st timestep control.target_steering_angle (count + 1) rest :=
  rfl

theorem previousSteeringAngle_succ (last_steer_angle : Double)
    (control : VehicleModelControlInput) (rest : List VehicleModelControlInput) (i : Nat) :
    previousSteeringAngle (stateWithSteering last_steer_angle) (control :: rest) (i + 1) =
      previousSteeringAngle (stateWithSteering control.target_steering_angle) rest i := by
  cases i with
  | zero => simp [previousSteeringAngle, stateWithSteering]
  | succ k => simp [previousSteeringAngle]

theorem validateControlInputsLoop_complete (st : Accessor) (timestep : Double)
    (h : 0 < timestep) (control_inputs : List VehicleModelControlInput) :
    ∀ (last_steer_angle : Double) (count : Nat),
      (∀ (i : Nat) (hi : i < control_inputs.length),
        withinLimits st timestep
          (previousSteeringAngle (stateWithSteering last_steer_angle) control_inputs i)
          (control_inputs.get ⟨i, hi⟩)) →
      validateControlInputsLoop st timestep last_steer_angle count control_inputs = .ok () := by
  induction control_inputs with
  | nil => intro _ _ _; rfl
  | cons control rest ih =>
    intro last count hall
    have h0 := hall 0 (by simp)
    simp only [previousSteeringAngle, stateWithSteering, List.get_eq_getElem,
      List.getElem_cons_zero, withinLimits] at h0
    obtain ⟨⟨a1, a2⟩, ⟨a3, a4⟩, a5⟩ := h0
    rw [validateControlInputsLoop_cons, if_neg (Double.not_lt_of_le a1),
      if_neg (Double.not_lt_of_le a2), if_neg (Double.not_lt_of_le a3),
      if_neg (Double.not_lt_of_le a4), if_neg (rate_not_above _ _ _ h a5)]
    refine ih control.target_steering_angle (count + 1) ?_
    intro i hi
    have := hall (i + 1) (by simpa using hi)
    rw [previousSteeringAngle_succ] at this
    simpa using this

theorem validateControlInputsLoop_sound (st : Accessor) (timestep : Double)
    (hlimits : st.forward_deceleration_limit_.isNaN = false ∧
      st.forward_acceleration_limit_.isNaN = false ∧
      st.min_steering_angle_.isNaN = false ∧ st.max_steering_angle_.isNaN = false)
    (control_inputs : List VehicleModelControlInput) :
    ∀ (last_steer_angle : Double) (count : Nat),
      (∀ control ∈ control_inputs, control.target_acceleration.isNaN = false ∧
        control.target_steering_angle.isNaN = false) →
      validateControlInputsLoop st timestep last_steer_angle count control_inputs = .ok () →
      ∀ control ∈ control_inputs,
        (st.forward_deceleration_limit_ ≤ control.target_acceleration ∧
          control.target_acceleration ≤ st.forward_acceleration_limit_) ∧
        (st.min_steering_angle_ ≤ control.target_steering_angle ∧
          control.target_steering_angle ≤ st.max_steering_angle_) := by
  induction control_inputs with
  | nil => intro _ _ _ _ control hc; simp at hc
  | cons first rest ih =>
    intro last count hnan hok control hc
    rw [validateControlInputsLoop_cons] at hok
    split_ifs at hok with h1 h2 h3 h4 h5
    have hfirst := hnan first (by simp)
    rcases List.mem_cons.mp hc with hc | hc
    · subst hc
      exact ⟨⟨Double.le_of_not_lt hfirst.1 hlimits.1 h1,
          Double.le_of_not_lt hlimits.2.1 hfirst.1 h2⟩,
        Double.le_of_not_lt hfirst.2 hlimits.2.2.1 h3,
        Double.le_of_not_lt hlimits.2.2.2 hfirst.2 h4⟩
    · exact ih _ _ (fun c hcr => hnan c (List.mem_cons_of_mem _ hcr)) hok control hc

/-- C1, as stated, fails: with the limits of the examples, timestep 1 and
initial steering 0, the single input with a NaN acceleration is accepted,
although the acceleration is not within the limits. -/
theorem validateControlInputs_accepts_nan :
    (0 : Double) < 1 ∧
    validateControlInputs exampleLimits (stateWithSteering 0) [accelerationNaN] 1 = .ok () ∧
    ¬ ∀ (i : Nat) (hi : i < [accelerationNaN].length),
      withinLimits exampleLimits 1
        (previousSteeringAngle (stateWithSteering 0) [accelerationNaN] i)
        ([accelerationNaN].get ⟨i, hi⟩) := by
  refine ⟨by decide, ?_, ?_⟩
  · simp only [validateControlInputs, validateControlInputsLoop_cons, validateControlInputsLoop,
      accelerationNaN, exampleLimits, stateWithSteering, Double.ofScientific_eq,
      Double.ofNat_eq, Double.neg_finite, Double.sub_finite, Double.div_def, abs_finite,
      Double.nan_lt, Double.lt_nan, Double.lt_finite, gt_iff_lt]
    norm_num [Double.div_def, abs_finite, Double.lt_finite, toInt]
  · intro h
    have h0 := h 0 (by simp)
    exact h0.1.1

/-- C1, amended: for every configuration, initial state, control sequence and
timestep greater than zero, if every input `i` has its acceleration within
`[forward_deceleration_limit, forward_acceleration_limit]`, its steering target
within `[min_steering_angle, max_steering_angle]` and
`|target_i - prev_i| / timestep ≤ max_steering_angle_rate` (`prev_0` the
steering angle of the initial state, `prev_i` the target of input `i - 1`), then
`validateControlInputs` returns without throwing; and, when none of these four
limits and none of the accelerations and steering targets is NaN, if
`validateControlInputs` returns without throwing then every input has its
acceleration and its steering target within those limits. -/
theorem validateControlInputs_limits (st : Accessor) (initial_state : VehicleState)
    (control_inputs : List VehicleModelControlInput) (timestep : Double) (h : 0 < timestep) :
    ((∀ (i : Nat) (hi : i < control_inputs.length),
        withinLimits st timestep (previousSteeringAngle initial_state control_inputs i)
          (control_inputs.get ⟨i, hi⟩)) →
      validateControlInputs st initial_state control_inputs timestep = .ok ()) ∧
    (st.forward_deceleration_limit_.isNaN = false ∧
        st.forward_acceleration_limit_.isNaN = false ∧
        st.min_steering_angle_.isNaN = false ∧ st.max_steering_angle_.isNaN = false →
      (∀ control ∈ control_inputs, control.target_acceleration.isNaN = false ∧
        control.target_steering_angle.isNaN = false) →
      validateControlInputs st initial_state control_inputs timestep = .ok () →
      ∀ (i : Nat) (hi : i < control_inputs.length),
        (st.forward_deceleration_limit_ ≤ (control_inputs.get ⟨i, hi⟩).target_acceleration ∧
          (control_inputs.get ⟨i, hi⟩).target_acceleration ≤
            st.forward_acceleration_limit_) ∧
        (st.min_steering_angle_ ≤ (control_inputs.get ⟨i, hi⟩).target_steering_angle ∧
          (control_inputs.get ⟨i, hi⟩).target_steering_angle ≤ st.max_steering_angle_)) := by
  constructor
  · intro hall
    refine validateControlInputsLoop_complete st timestep h control_inputs _ 0 ?_
    intro i hi
    have := hall i hi
    cases i with
    | zero => simpa [previousSteeringAngle, stateWithSteering] using this
    | succ k => simpa [previousSteeringAngle] using this
  · intro hlimits hinputs hok i hi
    exact validateControlInputsLoop_sound st timestep hlimits control_inputs _ 0 hinputs hok _
      (List.get_mem control_inputs i hi)

/-- Instance of the amended C1 at the second example of the specification: rate
limit 0.2, timestep 1, initial steering 0, steering targets 0.1 and 0.25. -/
theorem validateControlInputs_limits_witness :
    (0 : Double) < 1 ∧
      validateControlInputs exampleLimits (stateWithSteering 0) [steer 0.1, steer 0.25] 1 =
        .ok () := by
  refine ⟨by decide, ?_⟩
  refine (validateControlInputs_limits exampleLimits (stateWithSteering 0)
    [steer 0.1, steer 0.25] 1 (by decide)).1 ?_
  intro i hi
  have hi2 : i < 2 := by simpa using hi
  interval_cases i
  · simp only [withinLimits, previousSteeringAngle, exampleLimits, stateWithSteering, steer,
      List.get_eq_getElem, List.getElem_cons_zero, Double.ofScientific_eq, Double.ofNat_eq,
      Double.neg_finite, Double.sub_finite, Double.fabs_finite, Double.le_finite]
    rw [Double.div_finite _ _ (by norm_num)]
    norm_num [Double.le_finite, abs_le]
  · simp only [withinLimits, previousSteeringAngle, exampleLimits, stateWithSteering, steer,
      List.get_eq_getElem, List.getElem_cons_succ, List.getElem_cons_zero, List.get?_cons_zero,
      Double.ofScientific_eq, Double.ofNat_eq,
      Double.neg_finite, Double.sub_finite, Double.fabs_finite, Double.le_finite]
    rw [Double.div_finite _ _ (by norm_num)]
    norm_num [Double.le_finite, abs_le]

/-- C2, as stated, fails: with the limits of the examples, a state whose
steering angle is NaN is accepted, although NaN is not within
`[min_steering_angle, max_steering_angle]`. -/
theorem validateInitialState_accepts_nan :
    validateInitialState exampleLimits steeringNaN = .ok () ∧
    ¬ ((exampleLimits.min_steering_angle_ ≤ steeringNaN.steering_angle ∧
        steeringNaN.steering_angle ≤ exampleLimits.max_steering_angle_) ∧
      (exampleLimits.min_trailer_angle_ ≤ steeringNaN.trailer_angle ∧
        steeringNaN.trailer_angle ≤ exampleLimits.max_trailer_angle_)) := by
  constructor
  · simp only [validateInitialState, steeringNaN, exampleLimits, Double.ofScientific_eq,
      Double.ofNat_eq, Double.neg_finite, Double.nan_lt, Double.lt_nan, Double.lt_finite,
      gt_iff_lt]
    norm_num
  · intro h
    exact (Double.le_nan _).mp h.1.1

theorem validateInitialState_ok_of_bounds (st : Accessor) (initial_state : VehicleState)
    (hsteer : st.min_steering_angle_ ≤ initial_state.steering_angle ∧
      initial_state.steering_angle ≤ st.max_steering_angle_)
    (htrailer : st.min_trailer_angle_ ≤ initial_state.trailer_angle ∧
      initial_state.trailer_angle ≤ st.max_trailer_angle_) :
    validateInitialState st initial_state = .ok () := by
  unfold validateInitialState
  rw [if_neg (Double.not_lt_of_le hsteer.1), if_neg (Double.not_lt_of_le hsteer.2),
    if_neg (Double.not_lt_of_le htrailer.1), if_neg (Double.not_lt_of_le htrailer.2)]

/-- C2, amended: when the steering angle and the trailer angle lie in
`[min_steering_angle, max_steering_angle]` and `[min_trailer_angle,
max_trailer_angle]`, `validateInitialState` returns without throwing, and when
none of the two angles and four bounds is NaN it returns without throwing if
and only if they do; when it throws, it throws for the first violated bound in
the order steering below min, steering above max, trailer below min, trailer
above max, with a message naming that field and carrying the offending value
and the bound.  With bounds -0.5 and 0.5 a steering angle of 0.6 gives the
steering "above max" error carrying 0.6 and 0.5. -/
theorem validateInitialState_spec (st : Accessor) (initial_state : VehicleState) :
    ((st.min_steering_angle_ ≤ initial_state.steering_angle ∧
        initial_state.steering_angle ≤ st.max_steering_angle_) ∧
      (st.min_trailer_angle_ ≤ initial_state.trailer_angle ∧
        initial_state.trailer_angle ≤ st.max_trailer_angle_) →
      validateInitialState st initial_state = .ok ()) ∧
    (initial_state.steering_angle.isNaN = false ∧ initial_state.trailer_angle.isNaN = false ∧
        st.min_steering_angle_.isNaN = false ∧ st.max_steering_angle_.isNaN = false ∧
        st.min_trailer_angle_.isNaN = false ∧ st.max_trailer_angle_.isNaN = false →
      (validateInitialState st initial_state = .ok () ↔
        (st.min_steering_angle_ ≤ initial_state.steering_angle ∧
          initial_state.steering_angle ≤ st.max_steering_angle_) ∧
        (st.min_trailer_angle_ ≤ initial_state.trailer_angle ∧
          initial_state.trailer_angle ≤ st.max_trailer_angle_))) ∧
    (initial_state.steering_angle < st.min_steering_angle_ →
      validateInitialState st initial_state = .error (.invalid_argument
        (.initialSteeringBelowMin initial_state.steering_angle st.min_steering_angle_))) ∧
    (st.min_steering_angle_ ≤ initial_state.steering_angle →
      st.max_steering_angle_ < initial_state.steering_angle →
      validateInitialState st initial_state = .error (.invalid_argument
        (.initialSteeringAboveMax initial_state.steering_angle st.max_steering_angle_))) ∧
    (st.min_steering_angle_ ≤ initial_state.steering_angle →
      initial_state.steering_angle ≤ st.max_steering_angle_ →
      initial_state.trailer_angle < st.min_trailer_angle_ →
      validateInitialState st initial_state = .error (.invalid_argument
        (.initialTrailerBelowMin initial_state.trailer_angle st.min_trailer_angle_))) ∧
    (st.min_steering_angle_ ≤ initial_state.steering_angle →
      initial_state.steering_angle ≤ st.max_steering_angle_ →
      st.min_trailer_angle_ ≤ initial_state.trailer_angle →
      st.max_trailer_angle_ < initial_state.trailer_angle →
      validateInitialState st initial_state = .error (.invalid_argument
        (.initialTrailerAboveMax initial_state.trailer_angle st.max_trailer_angle_))) ∧
    (st.min_steering_angle_ = -0.5 → st.max_steering_angle_ = 0.5 →
      initial_state.steering_angle = 0.6 →
      validateInitialState st initial_state =
        .error (.invalid_argument (.initialSteeringAboveMax 0.6 0.5))) := by
  refine ⟨fun h => validateInitialState_ok_of_bounds st initial_state h.1 h.2, ?_, ?_, ?_, ?_,
    ?_, ?_⟩
  · rintro ⟨n1, n2, n3, n4, n5, n6⟩
    refine ⟨?_, fun h => validateInitialState_ok_of_bounds st initial_state h.1 h.2⟩
    intro hok
    unfold validateInitialState at hok
    split_ifs at hok with h1 h2 h3 h4
    exact ⟨⟨Double.le_of_not_lt n1 n3 h1, Double.le_of_not_lt n4 n1 h2⟩,
      Double.le_of_not_lt n2 n5 h3, Double.le_of_not_lt n6 n2 h4⟩
  · intro h1
    simp [validateInitialState, h1]
  · intro h1 h2
    simp [validateInitialState, Double.not_lt_of_le h1, h2]
  · intro h1 h2 h3
    simp [validateInitialState, Double.not_lt_of_le h1, Double.not_lt_of_le h2, h3]
  · intro h1 h2 h3 h4
    simp [validateInitialState, Double.not_lt_of_le h1, Double.not_lt_of_le h2,
      Double.not_lt_of_le h3, h4]
  · intro h1 h2 h3
    simp only [validateInitialState, h1, h2, h3, Double.ofScientific_eq, Double.neg_finite,
      Double.lt_finite, gt_iff_lt]
    norm_num

/-- Instance of the amended C2 at the example of the specification: bounds -0.5
and 0.5, steering angle 0.6. -/
theorem validateInitialState_spec_witness :
    validateInitialState exampleLimits (stateWithSteering 0.6) =
      .error (.invalid_argument (.initialSteeringAboveMax 0.6 0.5)) :=
  (validateInitialState_spec exampleLimits (stateWithSteering 0.6)).2.2.2.1
    (by simp only [exampleLimits, stateWithSteering, Double.ofScientific_eq,
          Double.neg_finite, Double.le_finite]
        norm_num)
    (by simp only [exampleLimits, stateWithSteering, Double.ofScientific_eq,
          Double.lt_finite]
        norm_num)

theorem validateControlInputsLoop_cons_firstViolation (st : Accessor)
    (timestep last_steer_angle : Double) (count : Nat) (control : VehicleModelControlInput)
    (rest : List VehicleModelControlInput) :
    validateControlInputsLoop st timestep last_steer_angle count (control :: rest) =
      match firstViolation st timestep last_steer_angle count control with
      | some msg => .error (.invalid_argument msg)
      | none =>
        validateControlInputsLoop st timestep control.target_steering_angle (count + 1) rest := by
  rw [validateControlInputsLoop_cons]
  unfold firstViolation inputChecks
  split_ifs <;> simp [List.find?_cons, *]

theorem validateControlInputsLoop_error (st : Accessor) (timestep : Double)
    (control_inputs : List VehicleModelControlInput) :
    ∀ (last_steer_angle : Double) (count : Nat) (e : Exception),
      validateControlInputsLoop st timestep last_steer_angle count control_inputs = .error e →
      ∃ (i : Nat) (hi : i < control_inputs.length) (msg : Message),
        (∀ (j : Nat) (hj : j < control_inputs.length), j < i →
          firstViolation st timestep
            (previousSteeringAngle (stateWithSteering last_steer_angle) control_inputs j)
            (count + j) (control_inputs.get ⟨j, hj⟩) = none) ∧
        firstViolation st timestep
          (previousSteeringAngle (stateWithSteering last_steer_angle) control_inputs i)
          (count + i) (control_inputs.get ⟨i, hi⟩) = some msg ∧
        e = .invalid_argument msg ∧
        ∀ other : List VehicleModelControlInput,
          other.take (i + 1) = control_inputs.take (i + 1) →
          validateControlInputsLoop st timestep last_steer_angle count other = .error e := by
  induction control_inputs with
  | nil => intro last count e h; simp [validateControlInputsLoop] at h
  | cons control rest ih =>
    intro last count e h
    rw [validateControlInputsLoop_cons_firstViolation] at h
    cases hv : firstViolation st timestep last count control with
    | some msg =>
      rw [hv] at h
      simp only [Except.error.injEq] at h
      refine ⟨0, by simp, msg, ?_, ?_, h.symm, ?_⟩
      · intro j hj hlt
        omega
      · simpa [previousSteeringAngle, stateWithSteering] using hv
      · intro other hother
        cases other with
        | nil => simp at hother
        | cons c cs =>
          simp only [List.take_succ_cons, List.take_zero, List.cons.injEq, and_true] at hother
          subst hother
          rw [validateControlInputsLoop_cons_firstViolation, hv, ← h]
    | none =>
      rw [hv] at h
      obtain ⟨i, hi, msg, hbefore, hat, he, hafter⟩ :=
        ih control.target_steering_angle (count + 1) e h
      refine ⟨i + 1, by simpa using hi, msg, ?_, ?_, he, ?_⟩
      · intro j hj hlt
        cases j with
        | zero => simpa [previousSteeringAngle, stateWithSteering] using hv
        | succ k =>
          have hk : k < rest.length := by simpa using hj
          have := hbefore k hk (by omega)
          have hc : count + (k + 1) = count + 1 + k := by omega
          rw [hc]
          cases k with
          | zero => simpa [previousSteeringAngle, stateWithSteering] using this
          | succ m => simpa [previousSteeringAngle] using this
      · have hc : count + (i + 1) = count + 1 + i := by omega
        rw [hc]
        cases i with
        | zero => simpa [previousSteeringAngle, stateWithSteering] using hat
        | succ m => simpa [previousSteeringAngle] using hat
      · intro other hother
        cases other with
        | nil => simp at hother
        | cons c cs =>
          simp only [List.take_succ_cons, List.cons.injEq] at hother
          obtain ⟨hc, hcs⟩ := hother
          subst hc
          rw [validateControlInputsLoop_cons_firstViolation, hv]
          exact hafter cs hcs

/-- C4, on the code: at the example of the specification (rate limit 0.2,
timestep 1, initial steering 0, one input with steering target 0.5) the
quotient 0.5 is truncated to 0 by `abs`, the rate test does not fire and
`validateControlInputs` returns without throwing. -/
theorem validateControlInputs_rate_truncated :
    abs (((steer 0.5).target_steering_angle - (stateWithSteering 0).steering_angle) / 1) = 0 ∧
    Double.fabs ((steer 0.5).target_steering_angle - (stateWithSteering 0).steering_angle) / 1 >
      exampleLimits.max_steering_angle_rate_ ∧
    validateControlInputs exampleLimits (stateWithSteering 0) [steer 0.5] 1 = .ok () := by
  refine ⟨?_, ?_, ?_⟩
  · simp only [exampleLimits, stateWithSteering, steer, Double.ofScientific_eq,
      Double.ofNat_eq, Double.sub_finite, Double.div_def, abs_finite]
    norm_num [Double.div_def, abs_finite, toInt]
  · simp only [exampleLimits, stateWithSteering, steer, Double.ofScientific_eq,
      Double.ofNat_eq, Double.sub_finite, Double.fabs_finite, Double.div_def, gt_iff_lt]
    norm_num [Double.div_def, Double.lt_finite, abs_eq_max_neg]
  · simp only [validateControlInputs, validateControlInputsLoop_cons,
      validateControlInputsLoop, exampleLimits, stateWithSteering, steer,
      Double.ofScientific_eq, Double.ofNat_eq, Double.neg_finite, Double.sub_finite,
      Double.div_def, abs_finite, Double.lt_finite, gt_iff_lt]
    norm_num [Double.div_def, abs_finite, Double.lt_finite, toInt]

/-- C5: for every timestep greater than zero and every sequence `[a, b]` within
the acceleration and steering bounds with `|a.steer - initial steering| /
timestep` and `|b.steer - a.steer| / timestep` not above the rate limit,
`validateControlInputs` returns without throwing, with no condition on
`|b.steer - initial steering|`; and when the model is loaded and the initial
state is valid the overload of `predict` with control inputs calls the model
once, with the same initial state, control inputs and timestep, and returns its
answer. -/
theorem predictInputs_rate_against_previous (st : Accessor) (initial_state : VehicleState)
    (a b : VehicleModelControlInput) (timestep : Double) (ht : 0 < timestep)
    (ha : (st.forward_deceleration_limit_ ≤ a.target_acceleration ∧
        a.target_acceleration ≤ st.forward_acceleration_limit_) ∧
      st.min_steering_angle_ ≤ a.target_steering_angle ∧
        a.target_steering_angle ≤ st.max_steering_angle_)
    (hb : (st.forward_deceleration_limit_ ≤ b.target_acceleration ∧
        b.target_acceleration ≤ st.forward_acceleration_limit_) ∧
      st.min_steering_angle_ ≤ b.target_steering_angle ∧
        b.target_steering_angle ≤ st.max_steering_angle_)
    (hrate_a : Double.fabs (a.target_steering_angle - initial_state.steering_angle) /
        timestep ≤
      st.max_steering_angle_rate_)
    (hrate_b : Double.fabs (b.target_steering_angle - a.target_steering_angle) / timestep ≤
      st.max_steering_angle_rate_) :
    validateControlInputs st initial_state [a, b] timestep = .ok () ∧
    ∀ handle : ModelHandle, st.modelLoaded_ = true → st.vehicle_model_ = some handle →
      validateInitialState st initial_state = .ok () →
      predictInputs st initial_state [a, b] timestep =
        { result := .ok (handle.model.predictInputs initial_state [a, b] timestep)
          state := st
          trace := [.modelPredictInputs initial_state [a, b] timestep] } := by
  have hok : validateControlInputs st initial_state [a, b] timestep = .ok () := by
    rw [validateControlInputs, validateControlInputsLoop_cons,
      if_neg (Double.not_lt_of_le ha.1.1), if_neg (Double.not_lt_of_le ha.1.2),
      if_neg (Double.not_lt_of_le ha.2.1), if_neg (Double.not_lt_of_le ha.2.2),
      if_neg (rate_not_above _ _ _ ht hrate_a), validateControlInputsLoop_cons,
      if_neg (Double.not_lt_of_le hb.1.1), if_neg (Double.not_lt_of_le hb.1.2),
      if_neg (Double.not_lt_of_le hb.2.1), if_neg (Double.not_lt_of_le hb.2.2),
      if_neg (rate_not_above _ _ _ ht hrate_b)]
    rfl
  refine ⟨hok, ?_⟩
  intro handle hloaded hmodel hstate
  simp [predictInputs, hloaded, hmodel, hstate, hok]

/-- Instance of C5 at the example of the specification: rate limit 0.2, timestep
1, initial steering 0, steering targets 0.1 and 0.25; the second target is 0.25
away from the initial steering angle, above the rate limit. -/
theorem predictInputs_rate_against_previous_witness :
    Double.fabs ((steer 0.25).target_steering_angle - (stateWithSteering 0).steering_angle) /
        1 > exampleLoaded.max_steering_angle_rate_ ∧
    validateControlInputs exampleLoaded (stateWithSteering 0) [steer 0.1, steer 0.25] 1 =
      .ok () ∧
    predictInputs exampleLoaded (stateWithSteering 0) [steer 0.1, steer 0.25] 1 =
      { result := .ok [stateWithSteering 0, stateWithSteering 0.1, stateWithSteering 0.25]
        state := exampleLoaded
        trace := [.modelPredictInputs (stateWithSteering 0) [steer 0.1, steer 0.25] 1] } := by
  have h := predictInputs_rate_against_previous exampleLoaded (stateWithSteering 0)
    (steer 0.1) (steer 0.25) 1 (by decide)
    (by simp only [exampleLoaded, exampleLimits, steer, Double.ofScientific_eq,
          Double.ofNat_eq, Double.neg_finite, Double.le_finite]
        norm_num)
    (by simp only [exampleLoaded, exampleLimits, steer, Double.ofScientific_eq,
          Double.ofNat_eq, Double.neg_finite, Double.le_finite]
        norm_num)
    (by simp only [exampleLoaded, exampleLimits, steer, stateWithSteering,
          Double.ofScientific_eq, Double.ofNat_eq, Double.sub_finite, Double.fabs_finite,
          Double.div_def]
        norm_num [Double.le_finite, abs_le])
    (by simp only [exampleLoaded, exampleLimits, steer, stateWithSteering,
          Double.ofScientific_eq, Double.ofNat_eq, Double.sub_finite, Double.fabs_finite,
          Double.div_def]
        norm_num [Double.le_finite, abs_le])
  refine ⟨?_, h.1, ?_⟩
  · simp only [exampleLoaded, exampleLimits, steer, stateWithSteering,
      Double.ofScientific_eq, Double.ofNat_eq, Double.sub_finite, Double.fabs_finite,
      Double.div_def, gt_iff_lt]
    norm_num [Double.lt_finite, abs_eq_max_neg]
  · rw [h.2 { model := echoModel, deleter := { library := "libmodel.so" } } rfl rfl
      (by simp only [validateInitialState, exampleLoaded, exampleLimits, stateWithSteering,
            Double.ofScientific_eq, Double.ofNat_eq, Double.neg_finite, Double.lt_finite,
            gt_iff_lt]
          norm_num)]
    rfl

/-! ## Properties of initialisation -/

theorem init_loaded (st : Accessor) (dl : DynamicLoader)
    (parameter_server : Option ParameterServer) (h : st.modelLoaded_ = true) :
    init st dl parameter_server =
      { result := .error (.runtime_error .loadedTwice), state := st, trace := [] } := by
  simp [init, h]

/-- C6, as stated, fails: a parameter source with the nine keys that are read
and without `max_reverse_speed`, one of the required keys of the specification,
is accepted by `init`, which loads the model and returns. -/
theorem init_ok_without_reverse_key :
    "max_reverse_speed" ∈ requiredKeys ∧
    parametersWithoutReverse.lacks "max_reverse_speed" ∧
    (init uninitialized exampleLoader (some parametersWithoutReverse)).result = .ok () ∧
    (init uninitialized exampleLoader (some parametersWithoutReverse)).state.modelLoaded_ =
      true := by
  refine ⟨by simp [requiredKeys], ?_, ?_, ?_⟩
  · simp [ParameterServer.lacks, parametersWithoutReverse, ParameterServer.ofTables,
      List.lookup]
  · simp [init, loadParameters, loadModel, uninitialized, exampleLoader,
      parametersWithoutReverse, ParameterServer.ofTables, List.lookup]
  · simp [init, loadParameters, loadModel, uninitialized, exampleLoader,
      parametersWithoutReverse, ParameterServer.ofTables, List.lookup]

theorem getParam_flag (ps : ParameterServer) (missing : List String) (key : String)
    (h : if key ∈ missing then ps.lacks key else ps.finds key) :
    (key = "vehicle_model_lib_path" →
      ∀ output, (ps.getParamString key output).1 = !decide (key ∈ missing)) ∧
    (key ≠ "vehicle_model_lib_path" →
      ∀ output, (ps.getParamDouble key output).1 = !decide (key ∈ missing)) := by
  by_cases hk : key ∈ missing
  · simp only [hk, if_true, ParameterServer.lacks] at h
    constructor
    · intro hp output
      rw [if_pos hp] at h
      simp [hk, h output]
    · intro hp output
      rw [if_neg hp] at h
      simp [hk, h output]
  · simp only [hk, if_false, ParameterServer.finds] at h
    constructor
    · intro hp output
      rw [if_pos hp] at h
      simp [hk, h output]
    · intro hp output
      rw [if_neg hp] at h
      simp [hk, h output]

theorem loadParameters_flags (st : Accessor) (ps : ParameterServer) (missing : List String)
    (hkeys : ∀ key ∈ readKeys, if key ∈ missing then ps.lacks key else ps.finds key) :
    (loadParameters st ps).2 = readKeys.map fun key => (key, !decide (key ∈ missing)) := by
  have h1 := (getParam_flag ps missing _
    (hkeys "vehicle_model_lib_path" (by simp [readKeys]))).1 rfl
  have h2 := (getParam_flag ps missing _
    (hkeys "max_forward_speed" (by simp [readKeys]))).2 (by decide)
  have h3 := (getParam_flag ps missing _
    (hkeys "forward_acceleration_limit" (by simp [readKeys]))).2 (by decide)
  have h4 := (getParam_flag ps missing _
    (hkeys "forward_deceleration_limit" (by simp [readKeys]))).2 (by decide)
  have h5 := (getParam_flag ps missing _
    (hkeys "max_steering_angle" (by simp [readKeys]))).2 (by decide)
  have h6 := (getParam_flag ps missing _
    (hkeys "min_steering_angle" (by simp [readKeys]))).2 (by decide)
  have h7 := (getParam_flag ps missing _
    (hkeys "max_steering_angle_rate" (by simp [readKeys]))).2 (by decide)
  have h8 := (getParam_flag ps missing _
    (hkeys "max_trailer_angle" (by simp [readKeys]))).2 (by decide)
  have h9 := (getParam_flag ps missing _
    (hkeys "min_trailer_angle" (by simp [readKeys]))).2 (by decide)
  simp only [loadParameters, readKeys, List.map, h1, h2, h3, h4, h5, h6, h7, h8, h9]

theorem loadParameters_keys (st : Accessor) (ps : ParameterServer) :
    (loadParameters st ps).2.map Prod.fst = readKeys := rfl

theorem init_missing (st : Accessor) (dl : DynamicLoader) (ps : ParameterServer)
    (hst : st.modelLoaded_ = false)
    (hall : ((loadParameters { st with param_server_ := some ps } ps).2.all
      fun kv => kv.2) = false) :
    init st dl (some ps) =
      { result := .error (.invalid_argument (.paramsNotFound
          (loadParameters { st with param_server_ := some ps } ps).2))
        state := (loadParameters { st with param_server_ := some ps } ps).1
        trace := (loadParameters { st with param_server_ := some ps } ps).2.map
          fun kv => Event.getParam kv.1 } := by
  unfold init
  rw [if_neg (by rw [hst]; simp)]
  dsimp only
  rw [if_pos (by rw [hall]; rfl)]

/-- C6, amended: for variables with the model not loaded and any parameter
source that is missing a non-empty subset of the nine keys `init` reads (the
path and eight doubles; the three reverse limits are not read), `init` throws
`invalid_argument` before touching the plugin, its message lists the nine keys
each with its found flag, and the keys flagged as not found are exactly the
missing ones. -/
theorem init_reports_missing_keys (st : Accessor) (dl : DynamicLoader) (ps : ParameterServer)
    (missing : List String) (hst : st.modelLoaded_ = false) (hne : missing ≠ [])
    (hsub : ∀ key ∈ missing, key ∈ readKeys)
    (hkeys : ∀ key ∈ readKeys, if key ∈ missing then ps.lacks key else ps.finds key) :
    ∃ found : List (String × Bool),
      (init st dl (some ps)).result = .error (.invalid_argument (.paramsNotFound found)) ∧
      found.map Prod.fst = readKeys ∧
      (∀ key, (key, false) ∈ found ↔ key ∈ missing) ∧
      (init st dl (some ps)).trace = readKeys.map Event.getParam := by
  have hflags := loadParameters_flags { st with param_server_ := some ps } ps missing hkeys
  have hall : ((loadParameters { st with param_server_ := some ps } ps).2.all
      fun kv => kv.2) = false := by
    obtain ⟨key, hkey⟩ := List.exists_mem_of_ne_nil missing hne
    rw [hflags, Bool.eq_false_iff]
    intro hcontra
    rw [List.all_eq_true] at hcontra
    have := hcontra (key, !decide (key ∈ missing))
      (List.mem_map.mpr ⟨key, hsub key hkey, rfl⟩)
    simp [hkey] at this
  rw [init_missing st dl ps hst hall]
  refine ⟨(loadParameters { st with param_server_ := some ps } ps).2, rfl, rfl, ?_, ?_⟩
  · intro key
    rw [hflags, List.mem_map]
    constructor
    · rintro ⟨k, -, hk⟩
      simp only [Prod.mk.injEq, Bool.not_eq_false', decide_eq_true_eq] at hk
      exact hk.1 ▸ hk.2
    · intro hkey
      exact ⟨key, hsub key hkey, by simp [hkey]⟩
  · rfl

/-- Instance of the amended C6: the source holding only the path is missing the
eight doubles, and exactly those are reported. -/
theorem init_reports_missing_keys_witness :
    ∃ found : List (String × Bool),
      (init uninitialized exampleLoader (some parametersPathOnly)).result =
        .error (.invalid_argument (.paramsNotFound found)) ∧
      found.map Prod.fst = readKeys ∧
      (∀ key, (key, false) ∈ found ↔ key ∈ readKeys.tail) ∧
      (init uninitialized exampleLoader (some parametersPathOnly)).trace =
        readKeys.map Event.getParam := by
  refine init_reports_missing_keys uninitialized exampleLoader parametersPathOnly
    readKeys.tail rfl (by simp [readKeys]) (fun key hkey => List.mem_of_mem_tail hkey) ?_
  intro key hkey
  simp only [readKeys, List.mem_cons, List.mem_singleton, List.not_mem_nil, or_false] at hkey
  rcases hkey with h | h | h | h | h | h | h | h | h <;> subst h <;>
    simp [readKeys, ParameterServer.lacks, ParameterServer.finds, parametersPathOnly,
      ParameterServer.ofTables, List.lookup]

theorem loadModel_frame (st : Accessor) (dl : DynamicLoader) :
    (loadModel st dl).state.configuration = st.configuration ∧
    (loadModel st dl).state.param_server_ = st.param_server_ ∧
    (loadModel st dl).state.modelLoaded_ = st.modelLoaded_ := by
  unfold loadModel
  split
  · exact ⟨rfl, rfl, rfl⟩
  · dsimp only
    split
    · exact ⟨rfl, rfl, rfl⟩
    · split <;> exact ⟨rfl, rfl, rfl⟩

theorem loadModel_ok (st : Accessor) (dl : DynamicLoader)
    (h : (loadModel st dl).result = .ok ()) :
    ∃ lib_handle create_fnc destroy_fnc,
      dl.dlopen st.vehicle_model_lib_path_ = some lib_handle ∧
      lib_handle.create = some create_fnc ∧ lib_handle.destroy = some destroy_fnc ∧
      (loadModel st dl).state.vehicle_model_ =
        (create_fnc ()).map fun m => { model := m, deleter := destroy_fnc } := by
  unfold loadModel at h ⊢
  cases hopen : dl.dlopen st.vehicle_model_lib_path_ with
  | none => rw [hopen] at h; simp at h
  | some lib_handle =>
    rw [hopen] at h
    dsimp only at h ⊢
    cases hcreate : lib_handle.create with
    | none => rw [hcreate] at h; simp at h
    | some create_fnc =>
      rw [hcreate] at h
      dsimp only at h ⊢
      cases hdestroy : lib_handle.destroy with
      | none => rw [hdestroy] at h; simp at h
      | some destroy_fnc =>
        exact ⟨lib_handle, create_fnc, destroy_fnc, rfl, hcreate, hdestroy, rfl⟩

theorem loadModel_error_handle (st : Accessor) (dl : DynamicLoader) (e : Exception)
    (h : (loadModel st dl).result = .error e) :
    (loadModel st dl).state.vehicle_model_ = st.vehicle_model_ := by
  unfold loadModel at h ⊢
  cases hopen : dl.dlopen st.vehicle_model_lib_path_ with
  | none => rfl
  | some lib_handle =>
    rw [hopen] at h
    dsimp only at h ⊢
    cases hcreate : lib_handle.create with
    | none => rfl
    | some create_fnc =>
      rw [hcreate] at h
      dsimp only at h ⊢
      cases hdestroy : lib_handle.destroy with
      | none => rfl
      | some destroy_fnc => rw [hdestroy] at h; simp at h
theorem init_null (st : Accessor) (dl : DynamicLoader) (hst : st.modelLoaded_ = false) :
    init st dl none =
      { result := .error .null_dereference
        state := { st with param_server_ := none }
        trace := [] } := by
  unfold init
  rw [if_neg (by rw [hst]; simp)]

theorem init_found (st : Accessor) (dl : DynamicLoader) (ps : ParameterServer)
    (hst : st.modelLoaded_ = false)
    (hall : ((loadParameters { st with param_server_ := some ps } ps).2.all
      fun kv => kv.2) = true) :
    init st dl (some ps) =
      match (loadModel (loadParameters { st with param_server_ := some ps } ps).1 dl).result with
      | .error e =>
        { result := .error e
          state := (loadModel (loadParameters { st with param_server_ := some ps } ps).1 dl).state
          trace := readKeys.map Event.getParam ++
            (loadModel (loadParameters { st with param_server_ := some ps } ps).1 dl).trace }
      | .ok () =>
        match (loadModel (loadParameters { st with param_server_ := some ps } ps).1
          dl).state.vehicle_model_ with
        | none =>
          { result := .error .null_dereference
            state := (loadModel (loadParameters { st with param_server_ := some ps } ps).1
              dl).state
            trace := readKeys.map Event.getParam ++
              (loadModel (loadParameters { st with param_server_ := some ps } ps).1 dl).trace }
        | some handle =>
          { result := .ok ()
            state := { (loadModel (loadParameters { st with param_server_ := some ps } ps).1
                dl).state with
              vehicle_model_ := some { handle with
                model := handle.model.setParameterServer (some ps) }
              modelLoaded_ := true }
            trace := readKeys.map Event.getParam ++
              (loadModel (loadParameters { st with param_server_ := some ps } ps).1 dl).trace ++
              [.setParameterServer] } := by
  have hps : (loadModel (loadParameters { st with param_server_ := some ps } ps).1
      dl).state.param_server_ = some ps := by
    rw [(loadModel_frame _ dl).2.1]
    rfl
  unfold init
  rw [if_neg (by rw [hst]; simp)]
  dsimp only
  rw [if_neg (by rw [hall]; simp), hps]
  rfl
theorem init_found_cases (st : Accessor) (dl : DynamicLoader) (ps : ParameterServer)
    (hst : st.modelLoaded_ = false)
    (hall : ((loadParameters { st with param_server_ := some ps } ps).2.all
      fun kv => kv.2) = true) :
    ∃ load : Outcome Unit,
      load = loadModel (loadParameters { st with param_server_ := some ps } ps).1 dl ∧
      ((∃ e, load.result = .error e ∧
          init st dl (some ps) =
            { result := .error e
              state := load.state
              trace := readKeys.map Event.getParam ++ load.trace }) ∨
        (load.result = .ok () ∧ load.state.vehicle_model_ = none ∧
          init st dl (some ps) =
            { result := .error .null_dereference
              state := load.state
              trace := readKeys.map Event.getParam ++ load.trace }) ∨
        (∃ handle, load.result = .ok () ∧ load.state.vehicle_model_ = some handle ∧
          init st dl (some ps) =
            { result := .ok ()
              state := { load.state with
                vehicle_model_ := some { handle with
                  model := handle.model.setParameterServer (some ps) }
                modelLoaded_ := true }
              trace := readKeys.map Event.getParam ++ load.trace ++ [.setParameterServer] })) := by
  refine ⟨_, rfl, ?_⟩
  rw [init_found st dl ps hst hall]
  cases hres : (loadModel (loadParameters { st with param_server_ := some ps } ps).1 dl).result with
  | error e => exact Or.inl ⟨e, rfl, rfl⟩
  | ok u =>
    cases hm : (loadModel (loadParameters { st with param_server_ := some ps } ps).1
        dl).state.vehicle_model_ with
    | none => exact Or.inr (Or.inl ⟨rfl, rfl, rfl⟩)
    | some handle => exact Or.inr (Or.inr ⟨handle, rfl, rfl, rfl⟩)
theorem init_state_param_server (st : Accessor) (dl : DynamicLoader)
    (parameter_server : Option ParameterServer) (hst : st.modelLoaded_ = false) :
    (init st dl parameter_server).state.param_server_ = parameter_server := by
  cases parameter_server with
  | none => rw [init_null st dl hst]
  | some ps =>
    cases hall : (loadParameters { st with param_server_ := some ps } ps).2.all fun kv => kv.2
    · rw [init_missing st dl ps hst hall]
      rfl
    · obtain ⟨load, hload, ⟨e, -, h⟩ | ⟨-, -, h⟩ | ⟨handle, -, -, h⟩⟩ :=
        init_found_cases st dl ps hst hall
      · rw [h, hload]
        exact (loadModel_frame _ dl).2.1
      · rw [h, hload]
        exact (loadModel_frame _ dl).2.1
      · rw [h, hload]
        exact (loadModel_frame _ dl).2.1

theorem init_state_configuration (st : Accessor) (dl : DynamicLoader) (ps : ParameterServer)
    (hst : st.modelLoaded_ = false) :
    (init st dl (some ps)).state.configuration = (loadParameters st ps).1.configuration := by
  cases hall : (loadParameters { st with param_server_ := some ps } ps).2.all fun kv => kv.2
  · rw [init_missing st dl ps hst hall]
    rfl
  · obtain ⟨load, hload, ⟨e, -, h⟩ | ⟨-, -, h⟩ | ⟨handle, -, -, h⟩⟩ :=
      init_found_cases st dl ps hst hall
    · rw [h, hload]
      exact (loadModel_frame _ dl).1
    · rw [h, hload]
      exact (loadModel_frame _ dl).1
    · rw [h, hload]
      exact (loadModel_frame _ dl).1

theorem init_error_flag (st : Accessor) (dl : DynamicLoader)
    (parameter_server : Option ParameterServer) (e : Exception)
    (he : (init st dl parameter_server).result = .error e) :
    (init st dl parameter_server).state.modelLoaded_ = st.modelLoaded_ := by
  cases hst : st.modelLoaded_ with
  | true => rw [init_loaded st dl parameter_server hst]; exact hst
  | false =>
    cases parameter_server with
    | none => rw [init_null st dl hst]; exact hst
    | some ps =>
      cases hall : (loadParameters { st with param_server_ := some ps } ps).2.all
        fun kv => kv.2
      · rw [init_missing st dl ps hst hall]
        exact hst
      · obtain ⟨load, hload, ⟨e', -, h⟩ | ⟨-, -, h⟩ | ⟨handle, -, -, h⟩⟩ :=
          init_found_cases st dl ps hst hall
        · rw [h, hload]
          exact ((loadModel_frame _ dl).2.2).trans hst
        · rw [h, hload]
          exact ((loadModel_frame _ dl).2.2).trans hst
        · rw [h] at he
          simp at he

theorem init_ok (st : Accessor) (dl : DynamicLoader)
    (parameter_server : Option ParameterServer)
    (hok : (init st dl parameter_server).result = .ok ()) :
    st.modelLoaded_ = false ∧ (init st dl parameter_server).state.modelLoaded_ = true ∧
    ∃ ps, parameter_server = some ps ∧
      ((loadParameters { st with param_server_ := some ps } ps).2.all fun kv => kv.2) = true ∧
      ∃ lib_handle create_fnc destroy_fnc model,
        dl.dlopen (loadParameters { st with param_server_ := some ps } ps).1.vehicle_model_lib_path_
          = some lib_handle ∧
        lib_handle.create = some create_fnc ∧ lib_handle.destroy = some destroy_fnc ∧
        create_fnc () = some model ∧
        (init st dl parameter_server).state.vehicle_model_ =
          some { model := model.setParameterServer (some ps), deleter := destroy_fnc } := by
  rcases Bool.eq_false_or_eq_true st.modelLoaded_ with hst | hst
  · rw [init_loaded st dl parameter_server hst] at hok
    simp at hok
  · cases parameter_server with
    | none => rw [init_null st dl hst] at hok; simp at hok
    | some ps =>
      rcases Bool.eq_false_or_eq_true ((loadParameters { st with param_server_ := some ps }
        ps).2.all fun kv => kv.2) with hall | hall
      · obtain ⟨load, hload, ⟨e', -, h⟩ | ⟨-, -, h⟩ | ⟨handle, hres, hhandle, h⟩⟩ :=
          init_found_cases st dl ps hst hall
        · rw [h] at hok
          simp at hok
        · rw [h] at hok
          simp at hok
        · rw [hload] at hres hhandle
          obtain ⟨lib_handle, create_fnc, destroy_fnc, hopen, hcreate, hdestroy, hmodel⟩ :=
            loadModel_ok _ dl hres
          rw [hhandle] at hmodel
          cases hc : create_fnc () with
          | none => rw [hc] at hmodel; simp at hmodel
          | some model =>
            rw [hc] at hmodel
            simp only [Option.map_some', Option.some.injEq] at hmodel
            subst hmodel
            rw [h]
            exact ⟨hst, rfl, ps, rfl, hall, lib_handle, create_fnc, destroy_fnc, model, hopen,
              hcreate, hdestroy, hc, rfl⟩
      · rw [init_missing st dl ps hst hall] at hok
        simp at hok

/-- C7, as stated, fails: `init` on the initial variables with a source holding
only the path throws for the missing doubles, and the path it read and the
parameter source stay stored. -/
theorem init_failure_keeps_path :
    (init uninitialized exampleLoader (some parametersPathOnly)).result.toBool = false ∧
    uninitialized.configuration.plugin_path = "" ∧
    (init uninitialized exampleLoader (some parametersPathOnly)).state.configuration.plugin_path =
      "libmodel.so" ∧
    uninitialized.param_server_.isSome = false ∧
    (init uninitialized exampleLoader (some parametersPathOnly)).state.param_server_.isSome =
      true := by
  have hall : ((loadParameters { uninitialized with param_server_ := some parametersPathOnly }
      parametersPathOnly).2.all fun kv => kv.2) = false := by
    simp [loadParameters, parametersPathOnly, ParameterServer.ofTables, List.lookup]
  rw [init_missing uninitialized exampleLoader parametersPathOnly rfl hall]
  refine ⟨rfl, rfl, ?_, rfl, rfl⟩
  simp [loadParameters, Accessor.configuration, parametersPathOnly, ParameterServer.ofTables,
    List.lookup]

/-- C7, amended: whenever `init` throws, `modelLoaded_` is as before the call;
if the model was already loaded all the variables are as before the call;
otherwise the stored parameter source is the one passed in and, when that is
not null, each of the nine configuration values read holds what its `getParam`
call left in it (the value found, for a key that was found) while the three
reverse limits are as before. -/
theorem init_failure_state (st : Accessor) (dl : DynamicLoader)
    (parameter_server : Option ParameterServer) (e : Exception)
    (h : (init st dl parameter_server).result = .error e) :
    (init st dl parameter_server).state.modelLoaded_ = st.modelLoaded_ ∧
    (st.modelLoaded_ = true → (init st dl parameter_server).state = st) ∧
    (st.modelLoaded_ = false →
      (init st dl parameter_server).state.param_server_ = parameter_server ∧
      ∀ ps, parameter_server = some ps →
        (init st dl parameter_server).state.configuration =
          { plugin_path :=
              (ps.getParamString "vehicle_model_lib_path" st.vehicle_model_lib_path_).2
            max_forward_speed :=
              (ps.getParamDouble "max_forward_speed" st.max_forward_speed_).2
            max_reverse_speed := st.max_reverse_speed_
            forward_acceleration_limit :=
              (ps.getParamDouble "forward_acceleration_limit" st.forward_acceleration_limit_).2
            forward_deceleration_limit :=
              (ps.getParamDouble "forward_deceleration_limit" st.forward_deceleration_limit_).2
            reverse_acceleration_limit := st.reverse_acceleration_limit_
            reverse_deceleration_limit := st.reverse_deceleration_limit_
            max_steering_angle :=
              (ps.getParamDouble "max_steering_angle" st.max_steering_angle_).2
            min_steering_angle :=
              (ps.getParamDouble "min_steering_angle" st.min_steering_angle_).2
            max_steering_angle_rate :=
              (ps.getParamDouble "max_steering_angle_rate" st.max_steering_angle_rate_).2
            max_trailer_angle :=
              (ps.getParamDouble "max_trailer_angle" st.max_trailer_angle_).2
            min_trailer_angle :=
              (ps.getParamDouble "min_trailer_angle" st.min_trailer_angle_).2 }) := by
  refine ⟨init_error_flag st dl parameter_server e h, ?_, ?_⟩
  · intro hst
    rw [init_loaded st dl parameter_server hst]
  · intro hst
    refine ⟨init_state_param_server st dl parameter_server hst, ?_⟩
    intro ps hps
    subst hps
    rw [init_state_configuration st dl ps hst]
    rfl

/-- Instance of the amended C7: the failed call with the source holding only the
path. -/
theorem init_failure_state_witness :
    (init uninitialized exampleLoader (some parametersPathOnly)).state.modelLoaded_ = false ∧
    (init uninitialized exampleLoader (some parametersPathOnly)).state.configuration =
      { uninitialized.configuration with plugin_path := "libmodel.so" } := by
  have hall : ((loadParameters { uninitialized with param_server_ := some parametersPathOnly }
      parametersPathOnly).2.all fun kv => kv.2) = false := by
    simp [loadParameters, parametersPathOnly, ParameterServer.ofTables, List.lookup]
  have h := init_failure_state uninitialized exampleLoader (some parametersPathOnly)
    (.invalid_argument (.paramsNotFound (loadParameters
      { uninitialized with param_server_ := some parametersPathOnly } parametersPathOnly).2))
    (by rw [init_missing uninitialized exampleLoader parametersPathOnly rfl hall])
  refine ⟨h.1, ?_⟩
  rw [(h.2.2 rfl).2 parametersPathOnly rfl]
  simp [uninitialized, Accessor.configuration, parametersPathOnly, ParameterServer.ofTables,
    List.lookup]

/-! ## Properties of the process -/

theorem predict_unloaded (st : Accessor) (initial_state : VehicleState) (timestep delta_t : Double)
    (hst : st.modelLoaded_ = false) :
    predict st initial_state timestep delta_t =
      { result := .error (.runtime_error .notLoaded), state := st, trace := [] } := by
  simp [predict, hst]

theorem predictInputs_unloaded (st : Accessor) (initial_state : VehicleState)
    (control_inputs : List VehicleModelControlInput) (timestep : Double)
    (hst : st.modelLoaded_ = false) :
    predictInputs st initial_state control_inputs timestep =
      { result := .error (.runtime_error .notLoaded), state := st, trace := [] } := by
  simp [predictInputs, hst]

theorem predict_state (st : Accessor) (initial_state : VehicleState) (timestep delta_t : Double) :
    (predict st initial_state timestep delta_t).state = st := by
  unfold predict
  split_ifs
  · rfl
  · rfl
  · split
    · rfl
    · split <;> rfl

theorem predictInputs_state (st : Accessor) (initial_state : VehicleState)
    (control_inputs : List VehicleModelControlInput) (timestep : Double) :
    (predictInputs st initial_state control_inputs timestep).state = st := by
  unfold predictInputs
  split_ifs
  · rfl
  · split
    · rfl
    · split
      · rfl
      · split <;> rfl

theorem stateAfter_loaded (st : Accessor) (call : Call) (hst : st.modelLoaded_ = true) :
    call.stateAfter st = st := by
  cases call with
  | init dl parameter_server =>
    simp only [Call.stateAfter]
    rw [init_loaded st dl parameter_server hst]
  | predict initial_state timestep delta_t => exact predict_state st _ _ _
  | predictInputs initial_state control_inputs timestep => exact predictInputs_state st _ _ _

theorem runCalls_loaded (calls : List Call) (st : Accessor) (hst : st.modelLoaded_ = true) :
    runCalls st calls = st := by
  induction calls with
  | nil => rfl
  | cons call rest ih => rw [runCalls, stateAfter_loaded st call hst, ih]

theorem runCalls_append (first second : List Call) (st : Accessor) :
    runCalls st (first ++ second) = runCalls (runCalls st first) second := by
  induction first generalizing st with
  | nil => rfl
  | cons call rest ih => exact ih (call.stateAfter st)

/-- C8: once a call of `init` has returned, every later call of `init`, after any
calls in between and with any parameter source and loader, throws the
already-loaded `runtime_error`, makes no external call (no parameter is read,
the creation entry point is not invoked) and leaves all the variables as they
were. -/
theorem init_after_success (st : Accessor) (dl : DynamicLoader)
    (parameter_server : Option ParameterServer)
    (h : (init st dl parameter_server).result = .ok ()) (between : List Call)
    (later_dl : DynamicLoader) (later_server : Option ParameterServer) :
    runCalls (init st dl parameter_server).state between = (init st dl parameter_server).state ∧
    init (runCalls (init st dl parameter_server).state between) later_dl later_server =
      { result := .error (.runtime_error .loadedTwice)
        state := (init st dl parameter_server).state
        trace := [] } := by
  have hloaded := (init_ok st dl parameter_server h).2.1
  rw [runCalls_loaded between _ hloaded]
  exact ⟨rfl, init_loaded _ later_dl later_server hloaded⟩

/-- Instance of C8: after the successful call on the initial variables, a
prediction and a second `init` with another source change nothing. -/
theorem init_after_success_witness :
    (init uninitialized exampleLoader (some parametersWithoutReverse)).result = .ok () ∧
    init (runCalls (init uninitialized exampleLoader (some parametersWithoutReverse)).state
        [.predict (stateWithSteering 0) 1 2]) exampleLoader (some parametersPathOnly) =
      { result := .error (.runtime_error .loadedTwice)
        state := (init uninitialized exampleLoader (some parametersWithoutReverse)).state
        trace := [] } := by
  have hok : (init uninitialized exampleLoader (some parametersWithoutReverse)).result =
      .ok () := by
    simp [init, loadParameters, loadModel, uninitialized, exampleLoader,
      parametersWithoutReverse, ParameterServer.ofTables, List.lookup]
  exact ⟨hok, (init_after_success uninitialized exampleLoader (some parametersWithoutReverse)
    hok [.predict (stateWithSteering 0) 1 2] exampleLoader (some parametersPathOnly)).2⟩

theorem loaded_origin (calls : List Call) :
    ∀ st : Accessor, st.modelLoaded_ = false → (runCalls st calls).modelLoaded_ = true →
      ∃ (before : List Call) (dl : DynamicLoader) (ps : ParameterServer) (after : List Call),
        calls = before ++ Call.init dl (some ps) :: after ∧
        (runCalls st before).modelLoaded_ = false ∧
        (init (runCalls st before) dl (some ps)).result = .ok () := by
  induction calls with
  | nil =>
    intro st hst h
    rw [runCalls, hst] at h
    exact absurd h (by simp)
  | cons call rest ih =>
    intro st hst h
    rcases Bool.eq_false_or_eq_true (call.stateAfter st).modelLoaded_ with hafter | hafter
    · cases call with
      | init dl parameter_server =>
        simp only [Call.stateAfter] at hafter
        cases hres : (init st dl parameter_server).result with
        | error e =>
          rw [init_error_flag st dl parameter_server e hres, hst] at hafter
          exact absurd hafter (by simp)
        | ok u =>
          obtain ⟨-, -, ps, hps, -⟩ := init_ok st dl parameter_server hres
          subst hps
          exact ⟨[], dl, ps, rest, rfl, hst, hres⟩
      | predict initial_state timestep delta_t =>
        simp only [Call.stateAfter, predict_state, hst] at hafter
        exact absurd hafter (by simp)
      | predictInputs initial_state control_inputs timestep =>
        simp only [Call.stateAfter, predictInputs_state, hst] at hafter
        exact absurd hafter (by simp)
    · obtain ⟨before, dl, ps, after, hcalls, hflag, hok⟩ := ih (call.stateAfter st) hafter h
      exact ⟨call :: before, dl, ps, after, by rw [hcalls]; rfl, hflag, hok⟩

theorem toBool_eq_false {α : Type} (r : Except Exception α) (h : r.toBool = false) :
    ∃ e, r = .error e := by
  cases r with
  | error e => exact ⟨e, rfl⟩
  | ok a => simp [Except.toBool] at h

theorem runCalls_unloaded (calls : List Call) :
    ∀ st : Accessor, st.modelLoaded_ = false → (∀ r ∈ returnsLog st calls, r = false) →
      (runCalls st calls).modelLoaded_ = false := by
  induction calls with
  | nil => intro st hst _; exact hst
  | cons call rest ih =>
    intro st hst hlog
    have hcall : call.returns st = false := hlog _ (by simp [returnsLog])
    have hrest : ∀ r ∈ returnsLog (call.stateAfter st) rest, r = false :=
      fun r hr => hlog r (by simp [returnsLog, hr])
    refine ih (call.stateAfter st) ?_ hrest
    cases call with
    | init dl parameter_server =>
      obtain ⟨e, he⟩ := toBool_eq_false _ hcall
      exact (init_error_flag st dl parameter_server e he).trans hst
    | predict initial_state timestep delta_t =>
      simp only [Call.stateAfter, predict_state, hst]
    | predictInputs initial_state control_inputs timestep =>
      simp only [Call.stateAfter, predictInputs_state, hst]

/-- C9: in the variables reached from program start by any sequence of calls of
`init` and `predict`, `modelLoaded_` is true only if the sequence contains a call
of `init`, made with the flag still false, that returned: all nine `getParam`
calls gave `true`, `dlopen` gave a handle, both symbols were resolved and
`create` gave an instance.  In particular after a sequence made only of calls
of `init` that all threw, the flag is false and both overloads of `predict` throw
the not-loaded `runtime_error`. -/
theorem loaded_only_after_init (calls : List Call) :
    ((runCalls uninitialized calls).modelLoaded_ = true →
      ∃ (before : List Call) (dl : DynamicLoader) (ps : ParameterServer) (after : List Call),
        calls = before ++ Call.init dl (some ps) :: after ∧
        (runCalls uninitialized before).modelLoaded_ = false ∧
        (init (runCalls uninitialized before) dl (some ps)).result = .ok () ∧
        ((loadParameters { runCalls uninitialized before with param_server_ := some ps }
          ps).2.all fun kv => kv.2) = true ∧
        ∃ lib_handle create_fnc destroy_fnc model,
          dl.dlopen (loadParameters { runCalls uninitialized before with
            param_server_ := some ps } ps).1.vehicle_model_lib_path_ = some lib_handle ∧
          lib_handle.create = some create_fnc ∧ lib_handle.destroy = some destroy_fnc ∧
          create_fnc () = some model) ∧
    ((∀ call ∈ calls, call.isInit = true) →
      (∀ r ∈ returnsLog uninitialized calls, r = false) →
      (runCalls uninitialized calls).modelLoaded_ = false ∧
      (∀ initial_state timestep delta_t,
        predict (runCalls uninitialized calls) initial_state timestep delta_t =
          { result := .error (.runtime_error .notLoaded)
            state := runCalls uninitialized calls
            trace := [] }) ∧
      ∀ initial_state control_inputs timestep,
        predictInputs (runCalls uninitialized calls) initial_state control_inputs timestep =
          { result := .error (.runtime_error .notLoaded)
            state := runCalls uninitialized calls
            trace := [] }) := by
  constructor
  · intro h
    obtain ⟨before, dl, ps, after, hcalls, hflag, hok⟩ := loaded_origin calls uninitialized rfl h
    obtain ⟨-, -, ps', hps, hall, lib_handle, create_fnc, destroy_fnc, model, hopen, hcreate,
      hdestroy, hmodel, -⟩ := init_ok _ dl (some ps) hok
    cases hps
    exact ⟨before, dl, ps, after, hcalls, hflag, hok, hall, lib_handle, create_fnc,
      destroy_fnc, model, hopen, hcreate, hdestroy, hmodel⟩
  · intro _ hlog
    have hflag := runCalls_unloaded calls uninitialized rfl hlog
    exact ⟨hflag, fun _ _ _ => predict_unloaded _ _ _ _ hflag,
      fun _ _ _ => predictInputs_unloaded _ _ _ _ hflag⟩

/-- Instance of C9: two calls of `init` that throw, one for missing keys and
one with a null parameter server, leave the flag false and `predict` refused. -/
theorem loaded_only_after_init_witness :
    (runCalls uninitialized
      [.init exampleLoader (some parametersPathOnly), .init exampleLoader none]).modelLoaded_ =
        false ∧
    predict (runCalls uninitialized
        [.init exampleLoader (some parametersPathOnly), .init exampleLoader none])
        (stateWithSteering 0) 1 2 =
      { result := .error (.runtime_error .notLoaded)
        state := runCalls uninitialized
          [.init exampleLoader (some parametersPathOnly), .init exampleLoader none]
        trace := [] } := by
  have h := (loaded_only_after_init
    [.init exampleLoader (some parametersPathOnly), .init exampleLoader none]).2
    (by simp [Call.isInit])
    (by simp [returnsLog, Call.returns, Call.stateAfter, init, loadParameters, uninitialized,
      parametersPathOnly, ParameterServer.ofTables, List.lookup, Except.toBool])
  exact ⟨h.1, h.2.1 _ _ _⟩

/-- C10: while `modelLoaded_` is false both overloads of `predict` throw the
not-loaded `runtime_error` for every choice of arguments, before any validation,
without calling the model and without changing the variables. -/
theorem predict_before_init (st : Accessor) (hst : st.modelLoaded_ = false)
    (initial_state : VehicleState) (timestep delta_t : Double)
    (control_inputs : List VehicleModelControlInput) :
    predict st initial_state timestep delta_t =
      { result := .error (.runtime_error .notLoaded), state := st, trace := [] } ∧
    predictInputs st initial_state control_inputs timestep =
      { result := .error (.runtime_error .notLoaded), state := st, trace := [] } :=
  ⟨predict_unloaded st initial_state timestep delta_t hst,
    predictInputs_unloaded st initial_state control_inputs timestep hst⟩

/-- Instance of C10: with no model loaded, a steering angle of 0.6 outside
`[-0.5, 0.5]`, a timestep above `delta_t` and a steering target out of bounds
still give the not-loaded error. -/
theorem predict_before_init_witness :
    validateInitialState exampleLimits (stateWithSteering 0.6) ≠ .ok () ∧
    predict exampleLimits (stateWithSteering 0.6) 2 1 =
      { result := .error (.runtime_error .notLoaded), state := exampleLimits, trace := [] } ∧
    predictInputs exampleLimits (stateWithSteering 0.6) [steer 5] 2 =
      { result := .error (.runtime_error .notLoaded), state := exampleLimits, trace := [] } := by
  refine ⟨?_, predict_before_init exampleLimits rfl (stateWithSteering 0.6) 2 1 [steer 5]⟩
  intro h
  simp only [validateInitialState, exampleLimits, stateWithSteering, Double.ofScientific_eq,
    Double.ofNat_eq, Double.neg_finite, Double.lt_finite, gt_iff_lt] at h
  norm_num at h
  cases h

/-! ## Properties of prediction -/

theorem predict_loaded (st : Accessor) (initial_state : VehicleState) (timestep delta_t : Double)
    (hst : st.modelLoaded_ = true) :
    predict st initial_state timestep delta_t =
      if timestep > delta_t then
        { result := .error (.invalid_argument (.invalidTimestep timestep delta_t))
          state := st
          trace := [] }
      else
        match validateInitialState st initial_state with
        | .error e => { result := .error e, state := st, trace := [] }
        | .ok () =>
          match st.vehicle_model_ with
          | none => { result := .error .null_dereference, state := st, trace := [] }
          | some handle =>
            { result := .ok (handle.model.predict initial_state timestep delta_t)
              state := st
              trace := [.modelPredict initial_state timestep delta_t] } := by
  unfold predict
  rw [if_neg (by rw [hst]; simp)]

theorem predictInputs_loaded (st : Accessor) (initial_state : VehicleState)
    (control_inputs : List VehicleModelControlInput) (timestep : Double)
    (hst : st.modelLoaded_ = true) :
    predictInputs st initial_state control_inputs timestep =
      match validateInitialState st initial_state with
      | .error e => { result := .error e, state := st, trace := [] }
      | .ok () =>
        match validateControlInputs st initial_state control_inputs timestep with
        | .error e => { result := .error e, state := st, trace := [] }
        | .ok () =>
          match st.vehicle_model_ with
          | none => { result := .error .null_dereference, state := st, trace := [] }
          | some handle =>
            { result := .ok (handle.model.predictInputs initial_state control_inputs timestep)
              state := st
              trace := [.modelPredictInputs initial_state control_inputs timestep] } := by
  unfold predictInputs
  rw [if_neg (by rw [hst]; simp)]

theorem validateInitialState_message (st : Accessor) (initial_state : VehicleState)
    (e : Exception) (h : validateInitialState st initial_state = .error e) :
    ∀ timestep delta_t : Double, e ≠ .invalid_argument (.invalidTimestep timestep delta_t) := by
  intro timestep delta_t he
  subst he
  unfold validateInitialState at h
  split_ifs at h <;> simp at h

/-- C11: with the model loaded, the overload of `predict` with `timestep` and
`delta_t` throws the timestep `invalid_argument` if and only if `timestep >
delta_t`; when `timestep > delta_t` that is the error for every initial state,
valid or not, with no model call, and when `timestep ≤ delta_t` (equality
included) the call never ends with a timestep error. -/
theorem predict_timestep_consistency (st : Accessor) (hst : st.modelLoaded_ = true)
    (initial_state : VehicleState) (timestep delta_t : Double) :
    ((predict st initial_state timestep delta_t).result =
        .error (.invalid_argument (.invalidTimestep timestep delta_t)) ↔
      timestep > delta_t) ∧
    (timestep > delta_t →
      predict st initial_state timestep delta_t =
        { result := .error (.invalid_argument (.invalidTimestep timestep delta_t))
          state := st
          trace := [] }) ∧
    (timestep ≤ delta_t → ∀ a b : Double,
      (predict st initial_state timestep delta_t).result ≠
        .error (.invalid_argument (.invalidTimestep a b))) := by
  have hnot : ¬ timestep > delta_t → ∀ a b : Double,
      (predict st initial_state timestep delta_t).result ≠
        .error (.invalid_argument (.invalidTimestep a b)) := by
    intro h a b
    rw [predict_loaded st initial_state timestep delta_t hst, if_neg h]
    cases hv : validateInitialState st initial_state with
    | error e =>
      intro hcontra
      simp only [Except.error.injEq] at hcontra
      exact validateInitialState_message st initial_state e hv a b hcontra
    | ok u =>
      cases hm : st.vehicle_model_ with
      | none => simp
      | some handle => simp
  have hgt : timestep > delta_t →
      predict st initial_state timestep delta_t =
        { result := .error (.invalid_argument (.invalidTimestep timestep delta_t))
          state := st
          trace := [] } := by
    intro h
    rw [predict_loaded st initial_state timestep delta_t hst, if_pos h]
  refine ⟨⟨?_, fun h => by rw [hgt h]⟩, hgt, fun h => hnot (Double.not_lt_of_le h)⟩
  intro h
  by_contra hcontra
  exact hnot hcontra timestep delta_t h

/-- Instance of C11 at the example of the specification: timestep 2 and delta_t
1 with a valid state and a loaded model. -/
theorem predict_timestep_consistency_witness :
    validateInitialState exampleLoaded (stateWithSteering 0) = .ok () ∧
    predict exampleLoaded (stateWithSteering 0) 2 1 =
      { result := .error (.invalid_argument (.invalidTimestep 2 1))
        state := exampleLoaded
        trace := [] } := by
  constructor
  · simp only [validateInitialState, exampleLoaded, exampleLimits, stateWithSteering,
      Double.ofScientific_eq, Double.ofNat_eq, Double.neg_finite, Double.lt_finite,
      gt_iff_lt]
    norm_num
  · exact (predict_timestep_consistency exampleLoaded rfl (stateWithSteering 0) 2 1).2.1
      (by decide)

/-- C12: with the model loaded, the overload of `predict` with control inputs
calls the model if and only if `validateInitialState` and `validateControlInputs`
(on the whole sequence) both return; an invalid initial state gives its own
error whatever the control inputs are, an invalid control input gives the error
of `validateControlInputs`, and in both cases the model is not called at all. -/
theorem predictInputs_all_or_nothing (st : Accessor) (handle : ModelHandle)
    (hst : st.modelLoaded_ = true) (hmodel : st.vehicle_model_ = some handle)
    (initial_state : VehicleState) (control_inputs : List VehicleModelControlInput)
    (timestep : Double) :
    ((predictInputs st initial_state control_inputs timestep).trace =
        [.modelPredictInputs initial_state control_inputs timestep] ↔
      validateInitialState st initial_state = .ok () ∧
        validateControlInputs st initial_state control_inputs timestep = .ok ()) ∧
    (validateInitialState st initial_state = .ok () →
      validateControlInputs st initial_state control_inputs timestep = .ok () →
      predictInputs st initial_state control_inputs timestep =
        { result := .ok (handle.model.predictInputs initial_state control_inputs timestep)
          state := st
          trace := [.modelPredictInputs initial_state control_inputs timestep] }) ∧
    (∀ e, validateInitialState st initial_state = .error e →
      predictInputs st initial_state control_inputs timestep =
        { result := .error e, state := st, trace := [] }) ∧
    (∀ e, validateInitialState st initial_state = .ok () →
      validateControlInputs st initial_state control_inputs timestep = .error e →
      predictInputs st initial_state control_inputs timestep =
        { result := .error e, state := st, trace := [] }) := by
  have hok : validateInitialState st initial_state = .ok () →
      validateControlInputs st initial_state control_inputs timestep = .ok () →
      predictInputs st initial_state control_inputs timestep =
        { result := .ok (handle.model.predictInputs initial_state control_inputs timestep)
          state := st
          trace := [.modelPredictInputs initial_state control_inputs timestep] } := by
    intro h1 h2
    rw [predictInputs_loaded st initial_state control_inputs timestep hst, h1, h2, hmodel]
  have hstate : ∀ e, validateInitialState st initial_state = .error e →
      predictInputs st initial_state control_inputs timestep =
        { result := .error e, state := st, trace := [] } := by
    intro e h1
    rw [predictInputs_loaded st initial_state control_inputs timestep hst, h1]
  have hinputs : ∀ e, validateInitialState st initial_state = .ok () →
      validateControlInputs st initial_state control_inputs timestep = .error e →
      predictInputs st initial_state control_inputs timestep =
        { result := .error e, state := st, trace := [] } := by
    intro e h1 h2
    rw [predictInputs_loaded st initial_state control_inputs timestep hst, h1, h2]
  refine ⟨⟨?_, fun h => by rw [hok h.1 h.2]⟩, hok, hstate, hinputs⟩
  intro htrace
  cases h1 : validateInitialState st initial_state with
  | error e => rw [hstate e h1] at htrace; simp at htrace
  | ok u =>
    cases h2 : validateControlInputs st initial_state control_inputs timestep with
    | error e => rw [hinputs e h1 h2] at htrace; simp at htrace
    | ok v => exact ⟨rfl, rfl⟩

/-- Instance of C12: with limits of the examples and a loaded model, an initial
steering angle of 0.6 and an acceleration of 100 at index 0 give the error of
the initial state, and the model is not called. -/
theorem predictInputs_all_or_nothing_witness :
    predictInputs exampleLoaded (stateWithSteering 0.6)
        [{ target_acceleration := 100, target_steering_angle := 0 }] 1 =
      { result := .error (.invalid_argument (.initialSteeringAboveMax 0.6 0.5))
        state := exampleLoaded
        trace := [] } :=
  (predictInputs_all_or_nothing exampleLoaded
    { model := echoModel, deleter := { library := "libmodel.so" } } rfl rfl
    (stateWithSteering 0.6) [{ target_acceleration := 100, target_steering_angle := 0 }]
    1).2.2.1 _ (by
      simp only [validateInitialState, exampleLoaded, exampleLimits, stateWithSteering,
        Double.ofScientific_eq, Double.ofNat_eq, Double.neg_finite, Double.lt_finite,
        gt_iff_lt]
      norm_num)

/-- C13: with the model loaded, `timestep ≤ delta_t` and a valid initial state,
the overload of `predict` with `timestep` and `delta_t` calls the model once with
the same `initial_state`, `timestep` and `delta_t` and returns the very sequence
the model returns: same length, same order, same elements. -/
theorem predict_pass_through (st : Accessor) (handle : ModelHandle)
    (hst : st.modelLoaded_ = true) (hmodel : st.vehicle_model_ = some handle)
    (initial_state : VehicleState) (timestep delta_t : Double) (ht : timestep ≤ delta_t)
    (hvalid : validateInitialState st initial_state = .ok ()) :
    predict st initial_state timestep delta_t =
      { result := .ok (handle.model.predict initial_state timestep delta_t)
        state := st
        trace := [.modelPredict initial_state timestep delta_t] } := by
  rw [predict_loaded st initial_state timestep delta_t hst, if_neg (Double.not_lt_of_le ht),
    hvalid, hmodel]

/-- Instance of C13: the loaded `echoModel` answers with the initial state, and
so does `predict`, for `timestep` equal to `delta_t`. -/
theorem predict_pass_through_witness :
    predict exampleLoaded (stateWithSteering 0.1) 1 1 =
      { result := .ok [stateWithSteering 0.1]
        state := exampleLoaded
        trace := [.modelPredict (stateWithSteering 0.1) 1 1] } :=
  predict_pass_through exampleLoaded
    { model := echoModel, deleter := { library := "libmodel.so" } } rfl rfl
    (stateWithSteering 0.1) 1 1 (by decide) (by
      simp only [validateInitialState, exampleLoaded, exampleLimits, stateWithSteering,
        Double.ofScientific_eq, Double.ofNat_eq, Double.neg_finite, Double.lt_finite,
        gt_iff_lt]
      norm_num)

/-- C14: neither overload of `predict` changes the variables: for every state of
the variables and every argument list, whether the call returns or throws, the
variables after the call, and so `modelLoaded_`, the configuration values, the
parameter source and the model handle, are those before it. -/
theorem predict_frame (st : Accessor) (initial_state : VehicleState) (timestep delta_t : Double)
    (control_inputs : List VehicleModelControlInput) :
    ((predict st initial_state timestep delta_t).state = st ∧
      (predict st initial_state timestep delta_t).state.modelLoaded_ = st.modelLoaded_ ∧
      (predict st initial_state timestep delta_t).state.configuration = st.configuration ∧
      (predict st initial_state timestep delta_t).state.param_server_ = st.param_server_ ∧
      (predict st initial_state timestep delta_t).state.vehicle_model_ = st.vehicle_model_) ∧
    ((predictInputs st initial_state control_inputs timestep).state = st ∧
      (predictInputs st initial_state control_inputs timestep).state.modelLoaded_ =
        st.modelLoaded_ ∧
      (predictInputs st initial_state control_inputs timestep).state.configuration =
        st.configuration ∧
      (predictInputs st initial_state control_inputs timestep).state.param_server_ =
        st.param_server_ ∧
      (predictInputs st initial_state control_inputs timestep).state.vehicle_model_ =
        st.vehicle_model_) := by
  rw [predict_state, predictInputs_state]
  exact ⟨⟨rfl, rfl, rfl, rfl, rfl⟩, rfl, rfl, rfl, rfl, rfl⟩

/-! ## Properties of loading -/

theorem loadModel_open_failed (st : Accessor) (dl : DynamicLoader)
    (hopen : dl.dlopen st.vehicle_model_lib_path_ = none) :
    loadModel st dl =
      { result := .error (.invalid_argument (.openFailed st.vehicle_model_lib_path_
          (dl.dlopenError st.vehicle_model_lib_path_)))
        state := st
        trace := [.dlopen st.vehicle_model_lib_path_, .dlerror] } := by
  unfold loadModel
  rw [hopen]
  rfl

theorem loadModel_no_symbol (st : Accessor) (dl : DynamicLoader) (lib_handle : SharedLibrary)
    (hopen : dl.dlopen st.vehicle_model_lib_path_ = some lib_handle)
    (hcreate : lib_handle.create = none) (hdestroy : lib_handle.destroy = none) :
    loadModel st dl =
      { result := .error (.invalid_argument (.createNotFound (dl.dlsymError "destroy")))
        state := { st with create_fnc_ := none, destroy_fnc_ := none }
        trace := [.dlopen st.vehicle_model_lib_path_, .dlsym "create", .dlsym "destroy",
          .dlerror] } := by
  unfold loadModel
  rw [hopen]
  dsimp only
  rw [hcreate, hdestroy]
  rfl

theorem loadModel_no_create (st : Accessor) (dl : DynamicLoader) (lib_handle : SharedLibrary)
    (destroy_fnc : destroy_fnc_ptr)
    (hopen : dl.dlopen st.vehicle_model_lib_path_ = some lib_handle)
    (hcreate : lib_handle.create = none) (hdestroy : lib_handle.destroy = some destroy_fnc) :
    loadModel st dl =
      { result := .error (.logic_error .nullString)
        state := { st with create_fnc_ := none, destroy_fnc_ := some destroy_fnc }
        trace := [.dlopen st.vehicle_model_lib_path_, .dlsym "create", .dlsym "destroy",
          .dlerror] } := by
  unfold loadModel
  rw [hopen]
  dsimp only
  rw [hcreate, hdestroy]
  rfl

theorem loadModel_no_destroy (st : Accessor) (dl : DynamicLoader) (lib_handle : SharedLibrary)
    (create_fnc : create_fnc_ptr)
    (hopen : dl.dlopen st.vehicle_model_lib_path_ = some lib_handle)
    (hcreate : lib_handle.create = some create_fnc) (hdestroy : lib_handle.destroy = none) :
    loadModel st dl =
      { result := .error (.invalid_argument (.destroyNotFound (dl.dlsymError "destroy")))
        state := { st with create_fnc_ := some create_fnc, destroy_fnc_ := none }
        trace := [.dlopen st.vehicle_model_lib_path_, .dlsym "create", .dlsym "destroy",
          .dlerror] } := by
  unfold loadModel
  rw [hopen]
  dsimp only
  rw [hcreate, hdestroy]
  rfl

theorem loadModel_resolved (st : Accessor) (dl : DynamicLoader) (lib_handle : SharedLibrary)
    (create_fnc : create_fnc_ptr) (destroy_fnc : destroy_fnc_ptr)
    (hopen : dl.dlopen st.vehicle_model_lib_path_ = some lib_handle)
    (hcreate : lib_handle.create = some create_fnc)
    (hdestroy : lib_handle.destroy = some destroy_fnc) :
    loadModel st dl =
      { result := .ok ()
        state := { st with
          create_fnc_ := some create_fnc
          destroy_fnc_ := some destroy_fnc
          vehicle_model_ := (create_fnc ()).map fun m => { model := m, deleter := destroy_fnc } }
        trace := [.dlopen st.vehicle_model_lib_path_, .dlsym "create", .dlsym "destroy",
          .create] } := by
  unfold loadModel
  rw [hopen]
  dsimp only
  rw [hcreate, hdestroy]

theorem loadModel_create_called (st : Accessor) (dl : DynamicLoader) :
    (Event.create ∈ (loadModel st dl).trace ↔
      ∃ lib_handle create_fnc destroy_fnc,
        dl.dlopen st.vehicle_model_lib_path_ = some lib_handle ∧
        lib_handle.create = some create_fnc ∧ lib_handle.destroy = some destroy_fnc) ∧
    (∀ e, (loadModel st dl).result = .error e →
      (loadModel st dl).state.vehicle_model_ = st.vehicle_model_ ∧
      Event.create ∉ (loadModel st dl).trace) := by
  cases hopen : dl.dlopen st.vehicle_model_lib_path_ with
  | none => rw [loadModel_open_failed st dl hopen]; simp
  | some lib =>
    cases hcreate : lib.create with
    | none =>
      cases hdestroy : lib.destroy with
      | none => rw [loadModel_no_symbol st dl lib hopen hcreate hdestroy]; simp [hcreate]
      | some d => rw [loadModel_no_create st dl lib d hopen hcreate hdestroy]; simp [hcreate]
    | some c =>
      cases hdestroy : lib.destroy with
      | none => rw [loadModel_no_destroy st dl lib c hopen hcreate hdestroy]; simp [hdestroy]
      | some d =>
        rw [loadModel_resolved st dl lib c d hopen hcreate hdestroy]
        simp [hcreate, hdestroy]

/-- C16, on the code: for a library that opens and exports `destroy` but not
`create`, the successful `dlsym` of `destroy` leaves `dlerror()` with nothing to
report, the constructor of `std::string` is given the null pointer, and
`loadModel` ends with `logic_error`, not with the `invalid_argument` naming the
`create` function; the model handle is left as it was. -/
theorem loadModel_create_missing_only :
    (loaderWithoutCreate.dlopen uninitialized.vehicle_model_lib_path_).isSome = true ∧
    (loadModel uninitialized loaderWithoutCreate).result = .error (.logic_error .nullString) ∧
    (∀ errorLog : String, (loadModel uninitialized loaderWithoutCreate).result ≠
      .error (.invalid_argument (.createNotFound errorLog))) ∧
    (loadModel uninitialized loaderWithoutCreate).state.vehicle_model_ =
      uninitialized.vehicle_model_ := by
  rw [loadModel_no_create uninitialized loaderWithoutCreate
    { create := none, destroy := some { library := "" } } { library := "" } rfl rfl rfl]
  exact ⟨rfl, rfl, fun _ => by simp, rfl⟩

/-! ## Algebraic properties of the control-input validator -/

theorem validateControlInputsLoop_ok_count (st : Accessor) (timestep : Double)
    (control_inputs : List VehicleModelControlInput) :
    ∀ (last_steer_angle : Double) (count other : Nat),
      validateControlInputsLoop st timestep last_steer_angle count control_inputs = .ok () →
      validateControlInputsLoop st timestep last_steer_angle other control_inputs = .ok () := by
  induction control_inputs with
  | nil => intro _ _ _ _; rfl
  | cons control rest ih =>
    intro last count other h
    rw [validateControlInputsLoop_cons] at h ⊢
    split_ifs at h ⊢
    exact ih _ _ _ h

theorem carriedState_cons (last_steer_angle : Double) (control : VehicleModelControlInput)
    (rest : List VehicleModelControlInput) :
    (carriedState (stateWithSteering last_steer_angle) (control :: rest)).steering_angle =
      (carriedState (stateWithSteering control.target_steering_angle) rest).steering_angle := by
  cases rest with
  | nil => rfl
  | cons next more =>
    unfold carriedState
    rw [List.getLast?_cons_cons]
    cases h : (next :: more).getLast? with
    | none => exact absurd (List.getLast?_eq_none_iff.mp h) (List.cons_ne_nil next more)
    | some last => rfl

theorem carriedState_steering (initial_state : VehicleState)
    (control_inputs : List VehicleModelControlInput) :
    (carriedState (stateWithSteering initial_state.steering_angle)
        control_inputs).steering_angle =
      (carriedState initial_state control_inputs).steering_angle := by
  unfold carriedState
  cases control_inputs.getLast? <;> rfl

theorem validateControlInputsLoop_append (st : Accessor) (timestep : Double)
    (first second : List VehicleModelControlInput) :
    ∀ (last_steer_angle : Double) (count : Nat),
      validateControlInputsLoop st timestep last_steer_angle count (first ++ second) = .ok () ↔
        validateControlInputsLoop st timestep last_steer_angle count first = .ok () ∧
        validateControlInputsLoop st timestep
          (carriedState (stateWithSteering last_steer_angle) first).steering_angle 0 second =
            .ok () := by
  induction first with
  | nil =>
    intro last count
    simp only [List.nil_append, validateControlInputsLoop, true_and]
    exact ⟨validateControlInputsLoop_ok_count st timestep second _ _ _,
      validateControlInputsLoop_ok_count st timestep second _ _ _⟩
  | cons control rest ih =>
    intro last count
    rw [List.cons_append, validateControlInputsLoop_cons, validateControlInputsLoop_cons,
      carriedState_cons]
    split_ifs
    · simp
    · simp
    · simp
    · simp
    · simp
    · exact ih _ _

/-- C17: validation of a concatenated sequence decomposes through the carried
steering angle: for every initial state `s`, timestep and sequences `xs`, `ys`,
`validateControlInputs` returns on `xs ++ ys` if and only if it returns on `xs`
and returns on `ys` from `s` with its steering angle replaced by the target of
the last element of `xs` (`s` itself when `xs` is empty); so the empty sequence
always validates and every prefix of a valid sequence is valid. -/
theorem validateControlInputs_append (st : Accessor) (initial_state : VehicleState)
    (xs ys : List VehicleModelControlInput) (timestep : Double) :
    (validateControlInputs st initial_state (xs ++ ys) timestep = .ok () ↔
      validateControlInputs st initial_state xs timestep = .ok () ∧
      validateControlInputs st (carriedState initial_state xs) ys timestep = .ok ()) ∧
    validateControlInputs st initial_state [] timestep = .ok () ∧
    (validateControlInputs st initial_state (xs ++ ys) timestep = .ok () →
      validateControlInputs st initial_state xs timestep = .ok ()) := by
  have h : validateControlInputs st initial_state (xs ++ ys) timestep = .ok () ↔
      validateControlInputs st initial_state xs timestep = .ok () ∧
      validateControlInputs st (carriedState initial_state xs) ys timestep = .ok () := by
    unfold validateControlInputs
    rw [validateControlInputsLoop_append, carriedState_steering]
  exact ⟨h, rfl, fun hall => (h.mp hall).1⟩

/-- Instance of C17: the valid sequence 0.1, 0.25 of the specification splits
into the valid prefix 0.1 and the rest 0.25 validated from steering angle 0.1. -/
theorem validateControlInputs_append_witness :
    validateControlInputs exampleLimits (stateWithSteering 0) [steer 0.1] 1 = .ok () ∧
    validateControlInputs exampleLimits (carriedState (stateWithSteering 0) [steer 0.1])
      [steer 0.25] 1 = .ok () :=
  (validateControlInputs_append exampleLimits (stateWithSteering 0) [steer 0.1] [steer 0.25]
    1).1.mp (by
      simp only [validateControlInputs, validateControlInputsLoop_cons,
        validateControlInputsLoop, List.cons_append, List.nil_append, exampleLimits,
        stateWithSteering, steer, Double.ofScientific_eq, Double.ofNat_eq, Double.neg_finite,
        Double.sub_finite, Double.div_def, abs_finite, Double.lt_finite, gt_iff_lt]
      norm_num [Double.div_def, abs_finite, Double.lt_finite, toInt])

theorem validateInitialState_error (st : Accessor) (initial_state : VehicleState)
    (e : Exception) (h : validateInitialState st initial_state = .error e) :
    e ≠ .null_dereference := by
  intro he
  subst he
  unfold validateInitialState at h
  split_ifs at h <;> simp at h

theorem validateControlInputs_error (st : Accessor) (initial_state : VehicleState)
    (control_inputs : List VehicleModelControlInput) (timestep : Double) (e : Exception)
    (h : validateControlInputs st initial_state control_inputs timestep = .error e) :
    e ≠ .null_dereference := by
  obtain ⟨_, _, msg, _, _, he, _⟩ :=
    validateControlInputsLoop_error st timestep control_inputs _ _ e h
  rw [he]
  simp

theorem predict_model_present (st : Accessor) (handle : ModelHandle)
    (hmodel : st.vehicle_model_ = some handle) (initial_state : VehicleState)
    (timestep delta_t : Double) :
    (predict st initial_state timestep delta_t).result ≠ .error .null_dereference := by
  rcases Bool.eq_false_or_eq_true st.modelLoaded_ with hst | hst
  · rw [predict_loaded st initial_state timestep delta_t hst]
    split_ifs
    · simp
    · cases hv : validateInitialState st initial_state with
      | error e =>
        intro h
        simp only [Except.error.injEq] at h
        exact validateInitialState_error st initial_state e hv h
      | ok u => rw [hmodel]; simp
  · rw [predict_unloaded st initial_state timestep delta_t hst]
    simp

theorem predictInputs_model_present (st : Accessor) (handle : ModelHandle)
    (hmodel : st.vehicle_model_ = some handle) (initial_state : VehicleState)
    (control_inputs : List VehicleModelControlInput) (timestep : Double) :
    (predictInputs st initial_state control_inputs timestep).result ≠
      .error .null_dereference := by
  rcases Bool.eq_false_or_eq_true st.modelLoaded_ with hst | hst
  · rw [predictInputs_loaded st initial_state control_inputs timestep hst]
    cases hv : validateInitialState st initial_state with
    | error e =>
      intro h
      simp only [Except.error.injEq] at h
      exact validateInitialState_error st initial_state e hv h
    | ok u =>
      cases hc : validateControlInputs st initial_state control_inputs timestep with
      | error e =>
        intro h
        simp only [Except.error.injEq] at h
        exact validateControlInputs_error st initial_state control_inputs timestep e hc h
      | ok v => rw [hmodel]; simp
  · rw [predictInputs_unloaded st initial_state control_inputs timestep hst]
    simp

/-- C19: in the variables reached from program start by any sequence of calls of
`init` and `predict`, if `modelLoaded_` is true then the model handle is not
null: it holds the instance returned by the `create` entry point of the library
opened by the call of `init` that returned, with the `destroy` entry point of
that same library as deleter, and that instance was handed the parameter source
of that call, which is also the stored one; so neither overload of `predict`
dereferences a null model. -/
theorem loaded_has_model (calls : List Call)
    (h : (runCalls uninitialized calls).modelLoaded_ = true) :
    ∃ (before : List Call) (dl : DynamicLoader) (ps : ParameterServer) (after : List Call)
      (lib_handle : SharedLibrary) (create_fnc : create_fnc_ptr)
      (destroy_fnc : destroy_fnc_ptr) (model : VehicleMotionModel),
      calls = before ++ Call.init dl (some ps) :: after ∧
      (init (runCalls uninitialized before) dl (some ps)).result = .ok () ∧
      dl.dlopen (loadParameters { runCalls uninitialized before with
        param_server_ := some ps } ps).1.vehicle_model_lib_path_ = some lib_handle ∧
      lib_handle.create = some create_fnc ∧ lib_handle.destroy = some destroy_fnc ∧
      create_fnc () = some model ∧
      (runCalls uninitialized calls).vehicle_model_ =
        some { model := model.setParameterServer (some ps), deleter := destroy_fnc } ∧
      (model.setParameterServer (some ps)).parameter_server = some ps ∧
      (runCalls uninitialized calls).param_server_ = some ps ∧
      (∀ initial_state timestep delta_t,
        (predict (runCalls uninitialized calls) initial_state timestep delta_t).result ≠
          .error .null_dereference) ∧
      ∀ initial_state control_inputs timestep,
        (predictInputs (runCalls uninitialized calls) initial_state control_inputs
          timestep).result ≠ .error .null_dereference := by
  obtain ⟨before, dl, ps, after, hcalls, hflag, hok⟩ := loaded_origin calls uninitialized rfl h
  obtain ⟨-, hloaded, ps', hps, -, lib_handle, create_fnc, destroy_fnc, model, hopen, hcreate,
    hdestroy, hmodel, hhandle⟩ := init_ok _ dl (some ps) hok
  cases hps
  have hrun : runCalls uninitialized calls =
      (init (runCalls uninitialized before) dl (some ps)).state := by
    rw [hcalls, runCalls_append]
    exact runCalls_loaded after _ hloaded
  rw [hrun]
  exact ⟨before, dl, ps, after, lib_handle, create_fnc, destroy_fnc, model, hcalls, hok, hopen,
    hcreate, hdestroy, hmodel, hhandle, rfl, init_state_param_server _ dl (some ps) hflag,
    fun _ _ _ => predict_model_present _ _ hhandle _ _ _,
    fun _ _ _ => predictInputs_model_present _ _ hhandle _ _ _⟩

/-- Instance of C19: after the successful call of `init` on the initial
variables the flag is true, and `predict` does not meet a null model. -/
theorem loaded_has_model_witness :
    (runCalls uninitialized
      [.init exampleLoader (some parametersWithoutReverse)]).modelLoaded_ = true ∧
    (predict (runCalls uninitialized [.init exampleLoader (some parametersWithoutReverse)])
      (stateWithSteering 0) 1 2).result ≠ .error .null_dereference := by
  have hflag : (runCalls uninitialized
      [.init exampleLoader (some parametersWithoutReverse)]).modelLoaded_ = true := by
    simp [runCalls, Call.stateAfter, init, loadParameters, loadModel, uninitialized,
      exampleLoader, parametersWithoutReverse, ParameterServer.ofTables, List.lookup]
  obtain ⟨_, _, _, _, _, _, _, _, _, _, _, _, _, _, _, _, _, hpredict, _⟩ :=
    loaded_has_model [.init exampleLoader (some parametersWithoutReverse)] hflag
  exact ⟨hflag, hpredict _ _ _⟩

end VehicleModelAccessor
